import Mathlib

/-!
Shallow embedding of the route-generation pipeline
(`data/routing/scripts` of the peloton repository): the data model
(`models.py`), the selection and deduplication engine
(`route_analyzer.py`), the generation engine with its retry loop
(`route_generator.py`), the station organizer (`file_writer.py`) and the
strategy configuration (`config.py`), together with theorems about them.

Database-backed selection queries are embedded over an explicit list of
aggregated per-pair rows (one `RouteStatistics` row per ordered station
pair, as produced by the SQL `GROUP BY`); SQL `ORDER BY trip_count DESC`
is modelled as a stable descending sort.  Python floats are modelled as
rationals, Python dicts as association lists with in-place update
semantics, and the external routing service as an explicit stream of
per-attempt outcomes.
-/

/-- Model of `models.StationCoordinate`. -/
structure StationCoordinate where
  station_id : String
  latitude : ℚ
  longitude : ℚ
deriving DecidableEq, Repr

/-- Model of `models.RouteStatistics`: one aggregated row per ordered
station pair.  The `__post_init__` invariant `trip_count >= 1` is carried
as a hypothesis where needed. -/
structure RouteStatistics where
  departure_station_id : String
  return_station_id : String
  trip_count : Nat
  avg_distance_m : ℚ
  avg_duration_s : ℚ
deriving DecidableEq, Repr

/-- Lexicographic comparison on character lists: the order Python uses to
compare station-identifier strings (code-point lexicographic). -/
def charListLt : List Char → List Char → Bool
  | [], [] => false
  | [], _ :: _ => true
  | _ :: _, [] => false
  | a :: as, b :: bs =>
    if a < b then true else if b < a then false else charListLt as bs

/-- Python string comparison on station identifiers. -/
def pyStrLt (a b : String) : Bool := charListLt a.data b.data

/-- The canonical key of a station pair: the two identifiers joined in
sorted order, as built by `sorted([a, b])` plus an f-string join in
`models.RouteStatistics.route_key` and in
`route_generator.RouteGenerator.generate_route`. -/
def routeKeyOf (a b : String) : String :=
  if pyStrLt b a then b ++ "-" ++ a else a ++ "-" ++ b

/-- Model of the property `models.RouteStatistics.route_key`. -/
def RouteStatistics.route_key (r : RouteStatistics) : String :=
  routeKeyOf r.departure_station_id r.return_station_id

/-- Model of `models.RouteGeometry`. -/
structure RouteGeometry where
  route_key : String
  departure_station_id : String
  return_station_id : String
  polyline : String
  distance_km : ℚ
  duration_minutes : ℚ
deriving DecidableEq, Repr

/-! ### Python dict model

`reverse_map` and other string-keyed dicts are modelled as association
lists: updating an existing key overwrites in place, a new key is
appended at the end, exactly as CPython dicts behave. -/

/-- Dict lookup. -/
def lookupA {α : Type} : List (String × α) → String → Option α
  | [], _ => none
  | (k', v) :: rest, k => if k' = k then some v else lookupA rest k

/-- Dict update: overwrite in place or append. -/
def updateA {α : Type} : List (String × α) → String → α → List (String × α)
  | [], k, v => [(k, v)]
  | (k', v') :: rest, k, v =>
    if k' = k then (k, v) :: rest else (k', v') :: updateA rest k v

/-! ### DeduplicationEngine: `RouteAnalyzer.deduplicate_bidirectional` -/

/-- Loop body of `deduplicate_bidirectional`: `seen` is the set of keys
already recorded (`seen_keys`, used only for membership), `rev` the
`reverse_map` dict threaded through the iteration; the canonical output
list is built on the way out, preserving input order. -/
def dedupGo (seen : List String) (rev : List (String × RouteStatistics)) :
    List RouteStatistics → List RouteStatistics × List (String × RouteStatistics)
  | [] => ([], rev)
  | r :: rs =>
    if seen.contains r.route_key then
      dedupGo seen (updateA rev r.route_key r) rs
    else
      let p := dedupGo (r.route_key :: seen) rev rs
      (r :: p.1, p.2)

/-- Model of `RouteAnalyzer.deduplicate_bidirectional`. -/
def deduplicate_bidirectional (routes : List RouteStatistics) :
    List RouteStatistics × List (String × RouteStatistics) :=
  dedupGo [] [] routes

/-- Total last-element helper used to state last-wins reverse-map facts. -/
def lastOpt {α : Type} : List α → Option α
  | [] => none
  | [a] => some a
  | _ :: b :: t => lastOpt (b :: t)

/-- Concrete statistics row builder used in examples and witnesses. -/
def exRow (a b : String) (c : Nat) : RouteStatistics :=
  { departure_station_id := a, return_station_id := b, trip_count := c,
    avg_distance_m := 0, avg_duration_s := 0 }

/-! ### SelectionEngine: sorting and selection (`route_analyzer.py`) -/

/-- Descending trip-count order: `a` may precede `b`.  Used for SQL
`ORDER BY trip_count DESC` and Python `sorted(key=trip_count, reverse=True)`. -/
def countGE (a b : RouteStatistics) : Prop := b.trip_count ≤ a.trip_count

instance : DecidableRel countGE := fun a b => Nat.decLe b.trip_count a.trip_count

instance : IsTotal RouteStatistics countGE :=
  ⟨fun a b => Nat.le_total b.trip_count a.trip_count⟩

instance : IsTrans RouteStatistics countGE :=
  ⟨fun _ _ _ h1 h2 => Nat.le_trans h2 h1⟩

/-- Stable descending sort by trip count.  Both the SQL ordering and
Python `sorted(..., reverse=True)` keep tied rows in source order. -/
def sortByCountDesc (l : List RouteStatistics) : List RouteStatistics :=
  List.insertionSort countGE l

/-- Model of `RouteAnalyzer.get_route_statistics` over an explicit table
`rows` of aggregated per-ordered-pair statistics: keep rows with at least
`min_trips` trips and order by trip count descending. -/
def get_route_statistics (rows : List RouteStatistics) (min_trips : Nat) :
    List RouteStatistics :=
  sortByCountDesc (rows.filter (fun r => min_trips ≤ r.trip_count))

/-- Model of `RouteAnalyzer.get_top_n_routes`. -/
def get_top_n_routes (rows : List RouteStatistics) (n : Nat) : List RouteStatistics :=
  (get_route_statistics rows 1).take n

/-- Rows departing from station `s` (the SQL `PARTITION BY
departure_station_id`). -/
def stationRows (rows : List RouteStatistics) (s : String) : List RouteStatistics :=
  rows.filter (fun r => r.departure_station_id == s)

/-- Model of `RouteAnalyzer.get_routes_by_station_top_n`, viewed per
departure station `s`: the SQL window ranks the station's rows by trip
count descending and keeps ranks at most `n`. -/
def get_routes_by_station_top_n (rows : List RouteStatistics) (n : Nat) (s : String) :
    List RouteStatistics :=
  (sortByCountDesc (stationRows rows s)).take n

/-- Running cumulative trip counts (the SQL `SUM(...) OVER` window with
`ROWS BETWEEN UNBOUNDED PRECEDING AND CURRENT ROW`). -/
def cumRows (acc : Nat) : List RouteStatistics → List (Nat × RouteStatistics)
  | [] => []
  | r :: rs => (acc + r.trip_count, r) :: cumRows (acc + r.trip_count) rs

/-- Total trips per station (the SQL `station_trips` CTE). -/
def sumCounts (l : List RouteStatistics) : Nat := (l.map (fun r => r.trip_count)).sum

/-- Model of `RouteAnalyzer.get_routes_by_station_coverage`, per departure
station `s`: the station's rows ranked by trip count descending with a
running cumulative count; a row is kept when its cumulative share of the
station total is at most `pct` percent (`WHERE (cumulative_trips::float /
total_trips * 100) <= pct`), or when it is the rank-1 row (`OR rank = 1`). -/
def get_routes_by_station_coverage (rows : List RouteStatistics) (pct : ℚ)
    (s : String) : List RouteStatistics :=
  let srows := sortByCountDesc (stationRows rows s)
  let total : ℚ := (sumCounts (stationRows rows s) : ℚ)
  match cumRows 0 srows with
  | [] => []
  | first :: rest =>
    first.2 :: (rest.filter (fun cr => ((cr.1 : ℚ) / total) * 100 ≤ pct)).map
      (fun cr => cr.2)

/-- Loop of `get_global_coverage_routes`: append each route, stopping
right after the cumulative count first reaches the target. -/
def accumUntil (target : ℚ) : ℚ → List RouteStatistics → List RouteStatistics
  | _, [] => []
  | cum, r :: rs =>
    if target ≤ cum + (r.trip_count : ℚ) then [r]
    else r :: accumUntil target (cum + (r.trip_count : ℚ)) rs

/-- Model of `RouteAnalyzer.get_global_coverage_routes`. -/
def get_global_coverage_routes (rows : List RouteStatistics) (pct : ℚ) :
    List RouteStatistics :=
  let all_routes := get_route_statistics rows 1
  let target : ℚ := (sumCounts all_routes : ℚ) * (pct / 100)
  accumUntil target 0 (sortByCountDesc all_routes)

/-- The per-station coverage selection the specification describes:
`accumulate until cumulative/total >= pct/100, inclusive of the pair that
crosses the threshold`, on the station's rows sorted descending (what the
code would have to compute for claim C1 to hold). -/
def claimedStationCoverage (rows : List RouteStatistics) (pct : ℚ) (s : String) :
    List RouteStatistics :=
  let srows := sortByCountDesc (stationRows rows s)
  let target : ℚ := (sumCounts (stationRows rows s) : ℚ) * (pct / 100)
  accumUntil target 0 srows

/-- Scenario rows with trip counts 50, 30, 15, 5 (total 100). -/
def rows5030 : List RouteStatistics :=
  [exRow "030" "067" 50, exRow "030" "045" 30, exRow "045" "067" 15,
   exRow "067" "045" 5]

/-- Rows for the C1 counterexample: station `a` has pairs with trip
counts 60, 30 and 10 (total 100). -/
def rowsC1 : List RouteStatistics :=
  [exRow "a" "b" 60, exRow "a" "c" 30, exRow "a" "d" 10]

/-! ### GenerationEngine: `route_generator.py` -/

/-- One leg of a Valhalla response (`trip.legs[i]`), with its encoded
`shape`, `summary.length` (km) and `summary.time` (seconds). -/
structure Leg where
  shape : String
  length : ℚ
  time : ℚ
deriving DecidableEq, Repr

/-- Outcome of one HTTP attempt against the routing service: `ok` is a
2xx response carrying the parsed legs (an empty list models a trip with
no legs); `httpError` is a response whose `raise_for_status` raises
`requests.HTTPError` with the given status code; `transportError` is any
other `requests.RequestException` (timeout, connection reset) carrying
its message and Python class name; `unexpectedError` is any other
exception. -/
inductive AttemptOutcome where
  | ok (legs : List Leg)
  | httpError (status : Nat) (msg : String)
  | transportError (msg : String) (etype : String)
  | unexpectedError (msg : String) (etype : String)
deriving DecidableEq, Repr

/-- One `failed_routes` ledger entry. -/
structure FailureRecord where
  from_station : String
  to_station : String
  reason : String
  error_type : String
deriving DecidableEq, Repr

/-- The mutable counters of `RouteGenerator` (`__init__`). -/
structure GenStats where
  routes_generated : Nat
  routes_failed : Nat
  total_requests : Nat
  failed_routes : List FailureRecord
deriving DecidableEq, Repr

/-- Counter state at construction. -/
def GenStats.start : GenStats := ⟨0, 0, 0, []⟩

def GenStats.bumpRequests (st : GenStats) : GenStats :=
  { st with total_requests := st.total_requests + 1 }

def GenStats.addGenerated (st : GenStats) : GenStats :=
  { st with routes_generated := st.routes_generated + 1 }

def GenStats.addFailed (st : GenStats) : GenStats :=
  { st with routes_failed := st.routes_failed + 1 }

def GenStats.addLedger (st : GenStats) (rec : FailureRecord) : GenStats :=
  { st with failed_routes := st.failed_routes ++ [rec] }

/-- Result of one `generate_route` call: the optional geometry, the
statistics after the call, and the number of `time.sleep` calls made
(each of the fixed `retry_delay_seconds`). -/
structure CallResult where
  geometry : Option RouteGeometry
  stats : GenStats
  sleeps : Nat
deriving DecidableEq, Repr

/-- The retry loop of `RouteGenerator.generate_route`.  `remaining` is
the number of attempts still allowed (`max_retries - attempt + 1`),
`attempt` the 1-based index of the next attempt, `outcomes` what the
service does on each attempt, and `verify` the polyline
decode-then-re-encode round-trip (`none` models a decode failure, in
which case the original encoding is kept as fallback). -/
def generateRouteAux (verify : String → Option String)
    (f t : StationCoordinate) (outcomes : Nat → AttemptOutcome) :
    Nat → Nat → GenStats → Nat → CallResult
  | 0, _, st, sl => ⟨none, st, sl⟩
  | remaining + 1, attempt, st, sl =>
    let st1 := st.bumpRequests
    match outcomes attempt with
    | .ok legs =>
      match legs with
      | [] => ⟨none, st1.addFailed, sl⟩
      | leg :: _ =>
        let shape := (verify leg.shape).getD leg.shape
        let geom : RouteGeometry :=
          { route_key := routeKeyOf f.station_id t.station_id,
            departure_station_id := f.station_id,
            return_station_id := t.station_id,
            polyline := shape,
            distance_km := leg.length,
            duration_minutes := leg.time / 60 }
        ⟨some geom, st1.addGenerated, sl⟩
    | .httpError status _ =>
      if status = 400 then
        ⟨none, (st1.addLedger ⟨f.station_id, t.station_id,
          "Route not possible (HTTP 400)", "HTTPError"⟩).addFailed, sl⟩
      else if 0 < remaining then
        generateRouteAux verify f t outcomes remaining (attempt + 1) st1 (sl + 1)
      else
        ⟨none, st1.addFailed, sl⟩
    | .transportError msg etype =>
      if 0 < remaining then
        generateRouteAux verify f t outcomes remaining (attempt + 1) st1 (sl + 1)
      else
        ⟨none, (st1.addLedger ⟨f.station_id, t.station_id, msg, etype⟩).addFailed, sl⟩
    | .unexpectedError msg etype =>
      ⟨none, (st1.addLedger ⟨f.station_id, t.station_id, msg, etype⟩).addFailed, sl⟩

/-- Model of `RouteGenerator.generate_route`. -/
def generate_route (verify : String → Option String)
    (f t : StationCoordinate) (outcomes : Nat → AttemptOutcome)
    (max_retries : Nat) (st : GenStats) : CallResult :=
  generateRouteAux verify f t outcomes max_retries 1 st 0

/-- Loop of `RouteGenerator.generate_batch`: sequential calls, appending
each successful geometry; `outcomes i` is the attempt-outcome stream for
the i-th pair (0-based). -/
def generateBatchAux (verify : String → Option String)
    (outcomes : Nat → Nat → AttemptOutcome) (max_retries : Nat) :
    List (StationCoordinate × StationCoordinate) → Nat → GenStats →
      List RouteGeometry × GenStats
  | [], _, st => ([], st)
  | (f, t) :: rest, i, st =>
    let res := generate_route verify f t (outcomes i) max_retries st
    let next := generateBatchAux verify outcomes max_retries rest (i + 1) res.stats
    (match res.geometry with
     | some g => g :: next.1
     | none => next.1, next.2)

/-- Model of `RouteGenerator.generate_batch`. -/
def generate_batch (verify : String → Option String)
    (outcomes : Nat → Nat → AttemptOutcome) (max_retries : Nat)
    (pairs : List (StationCoordinate × StationCoordinate)) (st : GenStats) :
    List RouteGeometry × GenStats :=
  generateBatchAux verify outcomes max_retries pairs 0 st

/-- Concrete station coordinate used in examples. -/
def exSt (i : String) : StationCoordinate := ⟨i, 60, 24⟩

/-! ### StationOrganizer: `file_writer.py` -/

/-- The reverse geometry synthesized inside
`RouteFileWriter.organize_by_station`: same canonical key and polyline,
endpoints taken from the reverse-direction statistics. -/
def reverseGeometry (route : RouteGeometry) (rev : RouteStatistics) : RouteGeometry :=
  { route_key := route.route_key,
    departure_station_id := rev.departure_station_id,
    return_station_id := rev.return_station_id,
    polyline := route.polyline,
    distance_km := route.distance_km,
    duration_minutes := route.duration_minutes }

/-- The stream of (station, geometry) appends performed by
`organize_by_station`, in loop order. -/
def organizeEntries (routes : List RouteGeometry)
    (bidirectional_map : List (String × RouteStatistics)) :
    List (String × RouteGeometry) :=
  routes.flatMap (fun route =>
    (route.departure_station_id, route) ::
    (match lookupA bidirectional_map route.route_key with
     | some rev =>
       [((reverseGeometry route rev).departure_station_id, reverseGeometry route rev)]
     | none => []))

/-- Model of `RouteFileWriter.organize_by_station`, viewed per station
`s`: the defaultdict groups the emitted entries by departure station,
preserving per-station append order. -/
def organize_by_station (routes : List RouteGeometry)
    (bidirectional_map : List (String × RouteStatistics)) (s : String) :
    List RouteGeometry :=
  ((organizeEntries routes bidirectional_map).filter (fun e => e.1 == s)).map
    (fun e => e.2)

/-- Python `min` on two station identifiers. -/
def pyMinStr (a b : String) : String := if pyStrLt b a then b else a

/-- Python banker's rounding of `x` to `d` decimal digits (`round(x, d)`,
with floats idealized as rationals). -/
def pyRound (x : ℚ) (d : Nat) : ℚ :=
  let scaled := x * (10 : ℚ) ^ d
  let f : ℤ := ⌊scaled⌋
  let frac := scaled - (f : ℚ)
  let n : ℤ :=
    if frac < 1 / 2 then f
    else if 1 / 2 < frac then f + 1
    else if f % 2 = 0 then f else f + 1
  (n : ℚ) / (10 : ℚ) ^ d

/-- One route entry of a per-station file. -/
structure StationFileEntry where
  to_station : String
  polyline : String
  direction : String
  bidirectional : Bool
  distance_km : ℚ
  duration_min : ℚ
deriving DecidableEq, Repr

/-- The entry `RouteFileWriter.write_station_routes` builds for one
geometry: direction is `reverse` exactly when the departure identifier is
not the smaller of the two identifiers. -/
def stationFileEntryOf (route : RouteGeometry) : StationFileEntry :=
  { to_station := route.return_station_id,
    polyline := route.polyline,
    direction :=
      if route.departure_station_id ≠
          pyMinStr route.departure_station_id route.return_station_id
      then "reverse" else "forward",
    bidirectional := true,
    distance_km := pyRound route.distance_km 2,
    duration_min := pyRound route.duration_minutes 1 }

/-- Concrete geometry whose canonical representative was the descending
direction 067 → 030. -/
def geomB : RouteGeometry := ⟨"030-067", "067", "030", "pl", 1, 1⟩

/-- Concrete reverse map holding the ascending direction 030 → 067. -/
def mapB : List (String × RouteStatistics) := [("030-067", exRow "030" "067" 5)]

/-! ### Configuration: `config.py` -/

/-- Model of `config.RouteSelectionType`. -/
inductive RouteSelectionType where
  | top_n
  | percentage
deriving DecidableEq, Repr

/-- Model of `config.RouteSelectionStrategy` (the dataclass fields). -/
structure RouteSelectionStrategy where
  selection_type : RouteSelectionType
  top_n : Option Int
  coverage_percentage : Option ℚ
deriving DecidableEq, Repr

/-- Model of `RouteSelectionStrategy.create_top_n`: raising `ValueError`
is modelled as `Except.error`. -/
def RouteSelectionStrategy.create_top_n (n : Int) :
    Except String RouteSelectionStrategy :=
  if n < 1 then .error ("N must be positive")
  else .ok ⟨.top_n, some n, none⟩

/-- Model of `RouteSelectionStrategy.create_percentage`. -/
def RouteSelectionStrategy.create_percentage (pct : ℚ) :
    Except String RouteSelectionStrategy :=
  if ¬(0 < pct ∧ pct ≤ 100) then .error ("Percentage must be between 0 and 100")
  else .ok ⟨.percentage, none, some pct⟩

/-- Model of `config.RouteGenerationConfig` (the dataclass fields). -/
structure RouteGenerationConfig where
  global_strategy : Option RouteSelectionStrategy
  individual_strategy : Option RouteSelectionStrategy
  per_station_aggregate_strategy : Option RouteSelectionStrategy
  min_trips_threshold : Int
  batch_size : Int
  log_interval : Int
deriving DecidableEq, Repr

/-- Model of constructing a `RouteGenerationConfig`, whose
`__post_init__` validation runs before anything else can use the value. -/
def mkRouteGenerationConfig (g i a : Option RouteSelectionStrategy)
    (min_trips_threshold batch_size log_interval : Int) :
    Except String RouteGenerationConfig :=
  if g.isNone ∧ i.isNone ∧ a.isNone then
    .error ("At least one strategy must be set")
  else if min_trips_threshold < 1 then
    .error ("min_trips_threshold must be positive")
  else if ¬(1 ≤ batch_size ∧ batch_size ≤ 1000) then
    .error ("batch_size must be between 1 and 1000")
  else .ok ⟨g, i, a, min_trips_threshold, batch_size, log_interval⟩

theorem charListLt_asymm (as : List Char) : ∀ bs, charListLt as bs = true →
    charListLt bs as = false := by
  induction as with
  | nil =>
    intro bs h
    cases bs with
    | nil => simp [charListLt] at h
    | cons b t => simp [charListLt]
  | cons a as ih =>
    intro bs h
    cases bs with
    | nil => simp [charListLt] at h
    | cons b t =>
      rcases lt_trichotomy a b with hab | hab | hab
      · simp [charListLt, asymm hab, hab]
      · subst hab
        simp only [charListLt, lt_irrefl, if_false] at h ⊢
        exact ih t h
      · simp [charListLt, asymm hab, hab] at h

theorem charListLt_eq_of_both_false (as : List Char) : ∀ bs,
    charListLt as bs = false → charListLt bs as = false → as = bs := by
  induction as with
  | nil =>
    intro bs h _
    cases bs with
    | nil => rfl
    | cons b t => simp [charListLt] at h
  | cons a as ih =>
    intro bs h h'
    cases bs with
    | nil => simp [charListLt] at h'
    | cons b t =>
      rcases lt_trichotomy a b with hab | hab | hab
      · simp [charListLt, hab] at h
      · subst hab
        simp only [charListLt, lt_irrefl, if_false] at h h'
        rw [ih t h h']
      · simp [charListLt, hab] at h'

theorem pyStrLt_asymm (a b : String) (h : pyStrLt a b = true) : pyStrLt b a = false :=
  charListLt_asymm a.data b.data h

theorem pyStrLt_eq_of_both_false (a b : String) (h : pyStrLt a b = false)
    (h' : pyStrLt b a = false) : a = b :=
  String.ext (charListLt_eq_of_both_false a.data b.data h h')

theorem routeKeyOf_comm (a b : String) : routeKeyOf a b = routeKeyOf b a := by
  unfold routeKeyOf
  cases hab : pyStrLt a b with
  | true => rw [pyStrLt_asymm a b hab]; simp
  | false =>
    cases hba : pyStrLt b a with
    | true => simp
    | false => rw [pyStrLt_eq_of_both_false a b hab hba]

theorem lookupA_updateA_self {α : Type} (m : List (String × α)) (k : String) (v : α) :
    lookupA (updateA m k v) k = some v := by
  induction m with
  | nil => simp [updateA, lookupA]
  | cons p rest ih =>
    obtain ⟨k', v'⟩ := p
    by_cases h : k' = k
    · simp [updateA, h, lookupA]
    · simp [updateA, h, lookupA, ih]

theorem lookupA_updateA_other {α : Type} (m : List (String × α)) (k k' : String) (v : α)
    (h : k ≠ k') : lookupA (updateA m k v) k' = lookupA m k' := by
  induction m with
  | nil => simp [updateA, lookupA, h]
  | cons p rest ih =>
    obtain ⟨k₁, v₁⟩ := p
    by_cases h1 : k₁ = k
    · subst h1; simp [updateA, lookupA, h]
    · simp [updateA, h1, lookupA, ih]

theorem dedupGo_length (seen : List String) (rev : List (String × RouteStatistics))
    (l : List RouteStatistics) : (dedupGo seen rev l).1.length ≤ l.length := by
  induction l generalizing seen rev with
  | nil => simp [dedupGo]
  | cons r rs ih =>
    by_cases h : seen.contains r.route_key
    · simp only [dedupGo, if_pos h]
      exact Nat.le_succ_of_le (ih _ _)
    · simp only [dedupGo, if_neg h, List.length_cons]
      exact Nat.succ_le_succ (ih _ _)

theorem dedupGo_find? (seen : List String) (rev : List (String × RouteStatistics))
    (l : List RouteStatistics) (k : String) (hk : seen.contains k = false) :
    (dedupGo seen rev l).1.find? (fun r => r.route_key == k) =
      l.find? (fun r => r.route_key == k) := by
  induction l generalizing seen rev with
  | nil => simp [dedupGo]
  | cons r rs ih =>
    by_cases h : seen.contains r.route_key
    · have hne : (r.route_key == k) = false := by
        by_cases he : r.route_key = k
        · subst he; rw [h] at hk; cases hk
        · simpa using he
      simp only [dedupGo, if_pos h, List.find?_cons, hne]
      exact ih _ _ hk
    · by_cases he : r.route_key = k
      · have ht : (r.route_key == k) = true := by simpa using he
        simp only [dedupGo, if_neg h, List.find?_cons, ht]
      · have hne : (r.route_key == k) = false := by simpa using he
        simp only [dedupGo, if_neg h, List.find?_cons, hne]
        apply ih
        simp only [List.contains_cons, Bool.or_eq_false_iff]
        refine ⟨?_, hk⟩
        simpa using fun hkr => he hkr.symm

theorem dedupGo_count_zero (seen : List String) (rev : List (String × RouteStatistics))
    (l : List RouteStatistics) (k : String) (hk : seen.contains k = true) :
    (dedupGo seen rev l).1.countP (fun r => r.route_key == k) = 0 := by
  induction l generalizing seen rev with
  | nil => simp [dedupGo]
  | cons r rs ih =>
    by_cases h : seen.contains r.route_key
    · simp only [dedupGo, if_pos h]
      exact ih _ _ hk
    · have hne : (r.route_key == k) = false := by
        by_cases he : r.route_key = k
        · subst he; rw [hk] at h; exact absurd rfl h
        · simpa using he
      have hstep := ih (r.route_key :: seen) rev
        (by simp only [List.contains_cons, Bool.or_eq_true]; exact Or.inr hk)
      simp only [dedupGo, if_neg h, List.countP_cons, hne, hstep]
      simp

theorem dedupGo_count_le_one (seen : List String) (rev : List (String × RouteStatistics))
    (l : List RouteStatistics) (k : String) :
    (dedupGo seen rev l).1.countP (fun r => r.route_key == k) ≤ 1 := by
  induction l generalizing seen rev with
  | nil => simp [dedupGo]
  | cons r rs ih =>
    by_cases h : seen.contains r.route_key
    · simp only [dedupGo, if_pos h]
      exact ih _ _
    · by_cases he : r.route_key = k
      · subst he
        have h0 := dedupGo_count_zero (r.route_key :: seen) rev rs r.route_key (by simp)
        simp only [dedupGo, if_neg h, List.countP_cons, h0]
        simp
      · have hne : (r.route_key == k) = false := by simpa using he
        simp only [dedupGo, if_neg h, List.countP_cons, hne]
        simpa using ih (r.route_key :: seen) rev

theorem find?_eq_head?_filter {α : Type} (p : α → Bool) (l : List α) :
    l.find? p = (l.filter p).head? := by
  induction l with
  | nil => rfl
  | cons a as ih =>
    cases h : p a with
    | true => rw [List.find?_cons_of_pos _ h, List.filter_cons_of_pos h, List.head?_cons]
    | false =>
      rw [List.find?_cons_of_neg _ (by simp [h]), List.filter_cons_of_neg (by simp [h]), ih]

theorem lastOpt_cons_some {α : Type} (a : α) (l : List α) :
    ∃ q, lastOpt (a :: l) = some q := by
  induction l generalizing a with
  | nil => exact ⟨a, rfl⟩
  | cons b t ih => simpa [lastOpt] using ih b

theorem dedupGo_lookup_seen (seen : List String) (rev : List (String × RouteStatistics))
    (l : List RouteStatistics) (k : String) (hk : seen.contains k = true) :
    lookupA (dedupGo seen rev l).2 k =
      (match lastOpt (l.filter (fun r => r.route_key == k)) with
       | some q => some q
       | none => lookupA rev k) := by
  induction l generalizing seen rev with
  | nil => simp [dedupGo, lastOpt]
  | cons r rs ih =>
    by_cases h : seen.contains r.route_key
    · by_cases he : r.route_key = k
      · subst he
        simp only [dedupGo, if_pos h]
        rw [ih seen (updateA rev r.route_key r) hk]
        cases hL : rs.filter (fun x => x.route_key == r.route_key) with
        | nil =>
          simp [List.filter_cons, hL, lastOpt, lookupA_updateA_self]
        | cons x xs =>
          obtain ⟨q, hq⟩ := lastOpt_cons_some x xs
          simp [List.filter_cons, hL, lastOpt, hq]
      · have hne : (r.route_key == k) = false := by simpa using he
        simp only [dedupGo, if_pos h]
        rw [ih seen (updateA rev r.route_key r) hk]
        cases hL : rs.filter (fun x => x.route_key == k) with
        | nil =>
          simp [List.filter_cons, hne, hL, lastOpt,
            lookupA_updateA_other rev r.route_key k r he]
        | cons x xs =>
          obtain ⟨q, hq⟩ := lastOpt_cons_some x xs
          simp [List.filter_cons, hne, hL, lastOpt, hq]
    · have he : r.route_key ≠ k := by
        intro hkr; rw [hkr, hk] at h; exact h rfl
      have hne : (r.route_key == k) = false := by simpa using he
      simp only [dedupGo, if_neg h, List.filter_cons, hne]
      exact ih (r.route_key :: seen) rev
        (by simp only [List.contains_cons, Bool.or_eq_true]; exact Or.inr hk)

theorem dedupGo_lookup_unseen (seen : List String) (rev : List (String × RouteStatistics))
    (l : List RouteStatistics) (k : String) (hk : seen.contains k = false) :
    lookupA (dedupGo seen rev l).2 k =
      (match lastOpt ((l.filter (fun r => r.route_key == k)).tail) with
       | some q => some q
       | none => lookupA rev k) := by
  induction l generalizing seen rev with
  | nil => simp [dedupGo, lastOpt]
  | cons r rs ih =>
    by_cases h : seen.contains r.route_key
    · have he : r.route_key ≠ k := by
        intro hkr; rw [hkr, hk] at h; exact Bool.false_ne_true h
      have hne : (r.route_key == k) = false := by simpa using he
      simp only [dedupGo, if_pos h]
      rw [ih seen (updateA rev r.route_key r) hk]
      cases hT : (rs.filter (fun x => x.route_key == k)).tail with
      | nil =>
        simp [List.filter_cons, hne, hT, lastOpt,
          lookupA_updateA_other rev r.route_key k r he]
      | cons x xs =>
        obtain ⟨q, hq⟩ := lastOpt_cons_some x xs
        simp [List.filter_cons, hne, hT, lastOpt, hq]
    · by_cases he : r.route_key = k
      · subst he
        simp only [dedupGo, if_neg h]
        rw [dedupGo_lookup_seen (r.route_key :: seen) rev rs r.route_key (by simp)]
        simp [List.filter_cons]
      · have hne : (r.route_key == k) = false := by simpa using he
        simp only [dedupGo, if_neg h, List.filter_cons, hne]
        apply ih
        simp only [List.contains_cons, Bool.or_eq_false_iff]
        refine ⟨?_, hk⟩
        simpa using fun hkr => he hkr.symm

theorem dedupGo_filter_single (seen : List String) (rev : List (String × RouteStatistics))
    (l : List RouteStatistics) (k : String) (p : RouteStatistics)
    (hk : seen.contains k = false)
    (hfst : (l.filter (fun r => r.route_key == k)).head? = some p) :
    (dedupGo seen rev l).1.filter (fun r => r.route_key == k) = [p] := by
  have hfind : (dedupGo seen rev l).1.find? (fun r => r.route_key == k) = some p := by
    rw [dedupGo_find? seen rev l k hk, find?_eq_head?_filter]
    exact hfst
  have hhead : ((dedupGo seen rev l).1.filter (fun r => r.route_key == k)).head? = some p := by
    rw [← find?_eq_head?_filter]
    exact hfind
  have hcount := dedupGo_count_le_one seen rev l k
  rw [List.countP_eq_length_filter] at hcount
  cases hF : (dedupGo seen rev l).1.filter (fun r => r.route_key == k) with
  | nil => rw [hF] at hhead; cases hhead
  | cons x xs =>
    rw [hF] at hhead hcount
    simp only [List.head?_cons, Option.some.injEq] at hhead
    simp only [List.length_cons] at hcount
    have hxs : xs = [] := List.eq_nil_of_length_eq_zero (by omega)
    rw [hhead, hxs]

/-- C2 (amended): `deduplicate_bidirectional(P)` returns an output of
length at most `|P|`; for every canonical key, the first output pair with
that key is the first input pair bearing it and the key appears at most
once in the output; and for any two pairs `p`, `q` that are the only two
pairs of `P` with their shared canonical key (`p` first in input order,
e.g. a swapped-endpoint pair), exactly `p` appears in the output as
canonical and `q` is the reverse record under the key.  (The original
claim fails when a key occurs more than twice: the reverse slot is
overwritten last-wins.) -/
theorem C2_deduplicate (P : List RouteStatistics) :
    (deduplicate_bidirectional P).1.length ≤ P.length ∧
    (∀ k : String,
      (deduplicate_bidirectional P).1.find? (fun r => r.route_key == k) =
        P.find? (fun r => r.route_key == k) ∧
      (deduplicate_bidirectional P).1.countP (fun r => r.route_key == k) ≤ 1) ∧
    (∀ p q : RouteStatistics,
      P.filter (fun r => r.route_key == p.route_key) = [p, q] →
        (deduplicate_bidirectional P).1.filter
            (fun r => r.route_key == p.route_key) = [p] ∧
        lookupA (deduplicate_bidirectional P).2 p.route_key = some q) := by
  refine ⟨dedupGo_length [] [] P, fun k => ⟨dedupGo_find? [] [] P k rfl,
    dedupGo_count_le_one [] [] P k⟩, fun p q hpq => ⟨?_, ?_⟩⟩
  · exact dedupGo_filter_single [] [] P p.route_key p rfl (by rw [hpq]; rfl)
  · rw [deduplicate_bidirectional, dedupGo_lookup_unseen [] [] P p.route_key rfl, hpq]
    rfl

/-- C2 counterexample: with three pairs sharing one canonical key, the
pair `("b","a",8)` has swapped endpoints relative to the first pair
`("a","b",10)`, yet it neither appears in the canonical output nor is it
the reverse record (the reverse slot holds the later `("b","a",7)`,
last-wins), refuting the claim as stated over every input sequence. -/
theorem C2_counterexample :
    ¬(exRow "b" "a" 8 ∈
        (deduplicate_bidirectional
          [exRow "a" "b" 10, exRow "b" "a" 8, exRow "b" "a" 7]).1 ∨
      lookupA (deduplicate_bidirectional
          [exRow "a" "b" 10, exRow "b" "a" 8, exRow "b" "a" 7]).2
          (exRow "b" "a" 8).route_key = some (exRow "b" "a" 8)) := by
  decide

/-- C2 witness: the spec scenario `[("030","067",100), ("067","030",80)]`
deduplicates to the canonical first-seen pair with the swapped pair as
the reverse record. -/
theorem C2_witness :
    (deduplicate_bidirectional [exRow "030" "067" 100, exRow "067" "030" 80]).1.length ≤ 2 ∧
    (deduplicate_bidirectional [exRow "030" "067" 100, exRow "067" "030" 80]).1.filter
        (fun r => r.route_key == (exRow "030" "067" 100).route_key) =
      [exRow "030" "067" 100] ∧
    lookupA (deduplicate_bidirectional [exRow "030" "067" 100, exRow "067" "030" 80]).2
        (exRow "030" "067" 100).route_key = some (exRow "067" "030" 80) := by
  refine ⟨(C2_deduplicate [exRow "030" "067" 100, exRow "067" "030" 80]).1, ?_, ?_⟩
  · exact ((C2_deduplicate [exRow "030" "067" 100, exRow "067" "030" 80]).2.2
      (exRow "030" "067" 100) (exRow "067" "030" 80) (by decide)).1
  · exact ((C2_deduplicate [exRow "030" "067" 100, exRow "067" "030" 80]).2.2
      (exRow "030" "067" 100) (exRow "067" "030" 80) (by decide)).2

theorem length_sortByCountDesc (l : List RouteStatistics) :
    (sortByCountDesc l).length = l.length :=
  (List.perm_insertionSort countGE l).length_eq

theorem sorted_sortByCountDesc (l : List RouteStatistics) :
    List.Sorted countGE (sortByCountDesc l) :=
  List.sorted_insertionSort countGE l

theorem perm_sortByCountDesc (l : List RouteStatistics) : (sortByCountDesc l).Perm l :=
  List.perm_insertionSort countGE l

theorem filter_orderedInsert_count_pos (a : RouteStatistics) (c : Nat)
    (h : a.trip_count = c) (l : List RouteStatistics) :
    (List.orderedInsert countGE a l).filter (fun r => r.trip_count == c) =
      a :: l.filter (fun r => r.trip_count == c) := by
  induction l with
  | nil => simp [List.orderedInsert, List.filter_cons, h]
  | cons b t ih =>
    by_cases hab : countGE a b
    · simp [List.orderedInsert, hab, List.filter_cons, h]
    · have hb : b.trip_count ≠ c := by
        intro hbc
        exact hab (by rw [countGE, hbc, ← h])
      have hbf : (b.trip_count == c) = false := by simpa using hb
      simp [List.orderedInsert, hab, List.filter_cons, hbf, ih]

theorem filter_orderedInsert_count_neg (a : RouteStatistics) (c : Nat)
    (h : a.trip_count ≠ c) (l : List RouteStatistics) :
    (List.orderedInsert countGE a l).filter (fun r => r.trip_count == c) =
      l.filter (fun r => r.trip_count == c) := by
  have haf : (a.trip_count == c) = false := by simpa using h
  induction l with
  | nil => simp [List.orderedInsert, List.filter_cons, haf]
  | cons b t ih =>
    by_cases hab : countGE a b
    · simp [List.orderedInsert, hab, List.filter_cons, haf]
    · simp [List.orderedInsert, hab, List.filter_cons, ih]

theorem filter_sortByCountDesc (l : List RouteStatistics) (c : Nat) :
    (sortByCountDesc l).filter (fun r => r.trip_count == c) =
      l.filter (fun r => r.trip_count == c) := by
  induction l with
  | nil => rfl
  | cons a t ih =>
    simp only [sortByCountDesc] at ih
    show (List.orderedInsert countGE a (List.insertionSort countGE t)).filter _ = _
    by_cases hac : a.trip_count = c
    · rw [filter_orderedInsert_count_pos a c hac, ih, List.filter_cons]
      have hb : (a.trip_count == c) = true := by simpa using hac
      rw [hb]
      simp
    · rw [filter_orderedInsert_count_neg a c hac, ih, List.filter_cons]
      have hb : (a.trip_count == c) = false := by simpa using hac
      rw [hb]
      simp

/-- C7: every TopN(n) selection returns `min(n, number of qualifying
pairs)` rows, sorted by trip count descending, with rows of equal trip
count kept in source order (the sort is stable, hence deterministic);
the per-station variant satisfies the same properties independently for
each departure station `s`. -/
theorem C7_top_n (rows : List RouteStatistics) (n : Nat) (s : String) (c : Nat) :
    (get_top_n_routes rows n).length =
      min n (rows.filter (fun r => 1 ≤ r.trip_count)).length ∧
    List.Sorted countGE (get_top_n_routes rows n) ∧
    (get_route_statistics rows 1).filter (fun r => r.trip_count == c) =
      (rows.filter (fun r => 1 ≤ r.trip_count)).filter (fun r => r.trip_count == c) ∧
    (get_routes_by_station_top_n rows n s).length =
      min n (stationRows rows s).length ∧
    List.Sorted countGE (get_routes_by_station_top_n rows n s) ∧
    (sortByCountDesc (stationRows rows s)).filter (fun r => r.trip_count == c) =
      (stationRows rows s).filter (fun r => r.trip_count == c) := by
  refine ⟨?_, ?_, filter_sortByCountDesc _ c, ?_, ?_, filter_sortByCountDesc _ c⟩
  · rw [get_top_n_routes, List.length_take, get_route_statistics, length_sortByCountDesc]
  · exact List.Pairwise.sublist (List.take_sublist n _) (sorted_sortByCountDesc _)
  · rw [get_routes_by_station_top_n, List.length_take, length_sortByCountDesc]
  · exact List.Pairwise.sublist (List.take_sublist n _) (sorted_sortByCountDesc _)

theorem sumCounts_cons (r : RouteStatistics) (l : List RouteStatistics) :
    sumCounts (r :: l) = r.trip_count + sumCounts l := by
  simp [sumCounts]

theorem sumCounts_perm {l l' : List RouteStatistics} (h : l.Perm l') :
    sumCounts l = sumCounts l' := by
  simp only [sumCounts]
  exact (h.map (fun r => r.trip_count)).sum_eq

theorem one_le_sumCounts (l : List RouteStatistics) (hne : l ≠ [])
    (hpos : ∀ r ∈ l, 1 ≤ r.trip_count) : 1 ≤ sumCounts l := by
  cases l with
  | nil => exact absurd rfl hne
  | cons r t =>
    rw [sumCounts_cons]
    have := hpos r (by simp)
    omega

theorem accumUntil_reach (target : ℚ) (l : List RouteStatistics) : ∀ (cum : ℚ),
    target ≤ cum + (sumCounts l : ℚ) →
    target ≤ cum + (sumCounts (accumUntil target cum l) : ℚ) := by
  induction l with
  | nil => intro cum h; simpa [accumUntil] using h
  | cons r rs ih =>
    intro cum h
    by_cases hc : target ≤ cum + (r.trip_count : ℚ)
    · rw [accumUntil, if_pos hc]
      simpa [sumCounts] using hc
    · rw [accumUntil, if_neg hc]
      rw [sumCounts_cons] at h
      push_cast at h
      have hstep := ih (cum + (r.trip_count : ℚ)) (by linarith)
      rw [sumCounts_cons]
      push_cast
      linarith

theorem accumUntil_minimal (target : ℚ) (l : List RouteStatistics) : ∀ (cum : ℚ),
    cum < target →
    cum + (sumCounts (accumUntil target cum l).dropLast : ℚ) < target := by
  induction l with
  | nil => intro cum h; simpa [accumUntil, sumCounts] using h
  | cons r rs ih =>
    intro cum h
    by_cases hc : target ≤ cum + (r.trip_count : ℚ)
    · rw [accumUntil, if_pos hc]
      simpa [sumCounts] using h
    · rw [accumUntil, if_neg hc]
      have hlt : cum + (r.trip_count : ℚ) < target := lt_of_not_le hc
      cases hrest : accumUntil target (cum + (r.trip_count : ℚ)) rs with
      | nil => simpa [sumCounts] using h
      | cons x xs =>
        rw [List.dropLast_cons_of_ne_nil (List.cons_ne_nil x xs), sumCounts_cons]
        push_cast
        have hstep := ih (cum + (r.trip_count : ℚ)) hlt
        rw [hrest] at hstep
        linarith

theorem accumUntil_ne_nil (target cum : ℚ) (l : List RouteStatistics) (h : l ≠ []) :
    accumUntil target cum l ≠ [] := by
  cases l with
  | nil => exact absurd rfl h
  | cons r rs =>
    rw [accumUntil]
    by_cases hc : target ≤ cum + (r.trip_count : ℚ)
    · rw [if_pos hc]; simp
    · rw [if_neg hc]; simp

/-- C4: for every global Coverage(pct) selection over a non-empty set of
qualifying pairs with pct in (0,100], the cumulative trip count of the
returned prefix reaches `pct/100` of the total over all qualifying pairs,
the selection is non-empty, and it is minimal: dropping the last returned
element falls below the threshold.  In particular Coverage(80) over
counts [50,30,15,5] selects exactly the 50- and 30-count pairs. -/
theorem C4_global_coverage (rows : List RouteStatistics) (pct : ℚ)
    (hne : rows.filter (fun r => 1 ≤ r.trip_count) ≠ [])
    (hpct0 : 0 < pct) (hpct1 : pct ≤ 100) :
    ((sumCounts (get_route_statistics rows 1) : ℚ) * (pct / 100) ≤
      (sumCounts (get_global_coverage_routes rows pct) : ℚ)) ∧
    get_global_coverage_routes rows pct ≠ [] ∧
    ((sumCounts (get_global_coverage_routes rows pct).dropLast : ℚ) <
      (sumCounts (get_route_statistics rows 1) : ℚ) * (pct / 100)) ∧
    get_global_coverage_routes rows5030 80 =
      [exRow "030" "067" 50, exRow "030" "045" 30] := by
  have hsum1 : sumCounts (get_route_statistics rows 1) =
      sumCounts (rows.filter (fun r => 1 ≤ r.trip_count)) :=
    sumCounts_perm (perm_sortByCountDesc _)
  have hsum2 : sumCounts (sortByCountDesc (get_route_statistics rows 1)) =
      sumCounts (get_route_statistics rows 1) :=
    sumCounts_perm (perm_sortByCountDesc _)
  have hposF : ∀ r ∈ rows.filter (fun r => 1 ≤ r.trip_count), 1 ≤ r.trip_count := by
    intro r hr
    have := List.mem_filter.mp hr
    simpa using this.2
  have h1 : 1 ≤ sumCounts (rows.filter (fun r => 1 ≤ r.trip_count)) :=
    one_le_sumCounts _ hne hposF
  have htotal : (0 : ℚ) < (sumCounts (get_route_statistics rows 1) : ℚ) := by
    rw [hsum1]
    exact_mod_cast h1
  have htarget_le : (sumCounts (get_route_statistics rows 1) : ℚ) * (pct / 100) ≤
      (sumCounts (get_route_statistics rows 1) : ℚ) := by
    have hle1 : pct / 100 ≤ 1 := (div_le_one (by norm_num)).mpr hpct1
    exact mul_le_of_le_one_right htotal.le hle1
  have htarget_pos : (0 : ℚ) <
      (sumCounts (get_route_statistics rows 1) : ℚ) * (pct / 100) :=
    mul_pos htotal (div_pos hpct0 (by norm_num))
  refine ⟨?_, ?_, ?_, ?_⟩
  · have := accumUntil_reach
      ((sumCounts (get_route_statistics rows 1) : ℚ) * (pct / 100))
      (sortByCountDesc (get_route_statistics rows 1)) 0
      (by rw [hsum2]; linarith)
    rw [zero_add] at this
    simpa [get_global_coverage_routes] using this
  · apply accumUntil_ne_nil
    have hlen : (sortByCountDesc (get_route_statistics rows 1)).length =
        (rows.filter (fun r => 1 ≤ r.trip_count)).length := by
      rw [length_sortByCountDesc, get_route_statistics, length_sortByCountDesc]
    intro hnil
    rw [hnil] at hlen
    exact hne (List.eq_nil_of_length_eq_zero hlen.symm)
  · have := accumUntil_minimal
      ((sumCounts (get_route_statistics rows 1) : ℚ) * (pct / 100))
      (sortByCountDesc (get_route_statistics rows 1)) 0 htarget_pos
    rw [zero_add] at this
    simpa [get_global_coverage_routes] using this
  · norm_num [get_global_coverage_routes, get_route_statistics, sortByCountDesc,
      List.insertionSort, List.orderedInsert, accumUntil, sumCounts, countGE,
      rows5030, exRow, List.filter]

/-- C4 witness: the scenario instance discharges the hypotheses of
`C4_global_coverage` at concrete input. -/
theorem C4_witness :
    ((sumCounts (get_route_statistics rows5030 1) : ℚ) * (80 / 100) ≤
      (sumCounts (get_global_coverage_routes rows5030 80) : ℚ)) ∧
    get_global_coverage_routes rows5030 80 ≠ [] ∧
    ((sumCounts (get_global_coverage_routes rows5030 80).dropLast : ℚ) <
      (sumCounts (get_route_statistics rows5030 1) : ℚ) * (80 / 100)) ∧
    get_global_coverage_routes rows5030 80 =
      [exRow "030" "067" 50, exRow "030" "045" 30] :=
  C4_global_coverage rows5030 80 (by decide) (by norm_num) (by norm_num)

theorem cumRows_fst_ge (l : List RouteStatistics) : ∀ (acc : Nat),
    ∀ x ∈ cumRows acc l, acc ≤ x.1 := by
  induction l with
  | nil => intro acc x hx; simp [cumRows] at hx
  | cons r rs ih =>
    intro acc x hx
    rw [cumRows] at hx
    rcases List.mem_cons.mp hx with h | h
    · rw [h]; exact Nat.le_add_right acc r.trip_count
    · exact Nat.le_trans (Nat.le_add_right acc r.trip_count) (ih _ x h)

theorem cumRows_filter_eq_take (p : Nat → Bool)
    (hmono : ∀ a b : Nat, a ≤ b → p b = true → p a = true) :
    ∀ (l : List RouteStatistics) (acc : Nat),
    ((cumRows acc l).filter (fun cr => p cr.1)).map (fun cr => cr.2) =
      l.take ((cumRows acc l).countP (fun cr => p cr.1)) := by
  intro l
  induction l with
  | nil => intro acc; rfl
  | cons r rs ih =>
    intro acc
    rw [cumRows]
    cases hp : p (acc + r.trip_count) with
    | true =>
      rw [List.filter_cons_of_pos (by simpa using hp), List.countP_cons]
      simp only [hp, if_pos rfl, List.map_cons]
      rw [ih (acc + r.trip_count)]
      rfl
    | false =>
      have hall : ∀ x ∈ cumRows (acc + r.trip_count) rs, ¬(p x.1 = true) := by
        intro x hx hpx
        have hge := cumRows_fst_ge rs (acc + r.trip_count) x hx
        rw [hmono (acc + r.trip_count) x.1 hge hpx] at hp
        cases hp
      rw [List.filter_cons_of_neg (by simpa using hp), List.countP_cons]
      rw [List.filter_eq_nil_iff.mpr hall, List.countP_eq_zero.mpr hall]
      simp [hp]

theorem take_pos_ne_nil {α : Type} (l : List α) (n : Nat) (hl : l ≠ []) (hn : 1 ≤ n) :
    l.take n ≠ [] := by
  cases l with
  | nil => exact absurd rfl hl
  | cons a t =>
    cases n with
    | zero => omega
    | succ k => simp [List.take_succ_cons]

theorem head?_take_pos {α : Type} (l : List α) (n : Nat) (hn : 1 ≤ n) :
    (l.take n).head? = l.head? := by
  cases l with
  | nil => simp
  | cons a t =>
    cases n with
    | zero => omega
    | succ k => simp [List.take_succ_cons]

theorem coverage_cond_mono (total pct : ℚ) (htot : 0 ≤ total) :
    ∀ a b : Nat, a ≤ b →
      decide (((b : ℚ) / total) * 100 ≤ pct) = true →
      decide (((a : ℚ) / total) * 100 ≤ pct) = true := by
  intro a b hab hb
  rw [decide_eq_true_eq] at hb ⊢
  have hq : ((a : ℚ)) ≤ (b : ℚ) := by exact_mod_cast hab
  have hinv : (0 : ℚ) ≤ total⁻¹ := inv_nonneg.mpr htot
  have h1 : (a : ℚ) / total ≤ (b : ℚ) / total := by
    rw [div_eq_mul_inv, div_eq_mul_inv]
    exact mul_le_mul_of_nonneg_right hq hinv
  have h2 : ((a : ℚ) / total) * 100 ≤ ((b : ℚ) / total) * 100 :=
    mul_le_mul_of_nonneg_right h1 (by norm_num)
  exact le_trans h2 hb

/-- C1 (amended): for per-station Coverage(pct), the routes returned for
a departure station are the longest prefix of its pairs sorted descending
by trip count whose every element has cumulative share at most `pct`
percent of the station total — the pair that crosses the threshold is
excluded — except that the top pair is always included; hence the result
is sorted descending, non-empty, and headed by the station's top pair.
(The original claim, accumulation up to and including the crossing pair,
fails: the SQL `WHERE cumulative/total*100 <= pct` keeps only rows at or
below the threshold.) -/
theorem C1_per_station_coverage (rows : List RouteStatistics) (pct : ℚ) (s : String)
    (hne : stationRows rows s ≠ []) :
    get_routes_by_station_coverage rows pct s =
      (sortByCountDesc (stationRows rows s)).take
        (max 1 ((cumRows 0 (sortByCountDesc (stationRows rows s))).countP
          (fun cr => ((cr.1 : ℚ) / (sumCounts (stationRows rows s) : ℚ)) * 100 ≤ pct))) ∧
    List.Sorted countGE (get_routes_by_station_coverage rows pct s) ∧
    get_routes_by_station_coverage rows pct s ≠ [] ∧
    (get_routes_by_station_coverage rows pct s).head? =
      (sortByCountDesc (stationRows rows s)).head? := by
  have hlen : (sortByCountDesc (stationRows rows s)).length =
      (stationRows rows s).length := length_sortByCountDesc _
  have hsne : sortByCountDesc (stationRows rows s) ≠ [] := by
    intro h0
    rw [h0] at hlen
    exact hne (List.eq_nil_of_length_eq_zero hlen.symm)
  have hmono := coverage_cond_mono (sumCounts (stationRows rows s) : ℚ) pct
    (by exact_mod_cast Nat.zero_le _)
  have hmain : get_routes_by_station_coverage rows pct s =
      (sortByCountDesc (stationRows rows s)).take
        (max 1 ((cumRows 0 (sortByCountDesc (stationRows rows s))).countP
          (fun cr => ((cr.1 : ℚ) / (sumCounts (stationRows rows s) : ℚ)) * 100 ≤ pct))) := by
    cases hS : sortByCountDesc (stationRows rows s) with
    | nil => exact absurd hS hsne
    | cons r1 t1 =>
      have hdef : get_routes_by_station_coverage rows pct s =
          r1 :: ((cumRows (0 + r1.trip_count) t1).filter
            (fun cr => ((cr.1 : ℚ) / (sumCounts (stationRows rows s) : ℚ)) * 100 ≤ pct)).map
              (fun cr => cr.2) := by
        simp only [get_routes_by_station_coverage, hS, cumRows]
      rw [hdef, cumRows, List.countP_cons,
        cumRows_filter_eq_take _ hmono t1 (0 + r1.trip_count)]
      cases hp : decide (((((0 + r1.trip_count : Nat)) : ℚ) /
          (sumCounts (stationRows rows s) : ℚ)) * 100 ≤ pct) with
      | true =>
        rw [if_pos rfl, max_eq_right (Nat.succ_le_succ (Nat.zero_le _)),
          List.take_succ_cons]
      | false =>
        have hall : ∀ x ∈ cumRows (0 + r1.trip_count) t1,
            ¬(decide (((x.1 : ℚ) /
              (sumCounts (stationRows rows s) : ℚ)) * 100 ≤ pct) = true) := by
          intro x hx hpx
          have hge := cumRows_fst_ge t1 (0 + r1.trip_count) x hx
          rw [hmono (0 + r1.trip_count) x.1 hge hpx] at hp
          cases hp
        rw [if_neg Bool.false_ne_true, List.countP_eq_zero.mpr hall]
        simp
  refine ⟨hmain, ?_, ?_, ?_⟩
  · rw [hmain]
    exact List.Pairwise.sublist (List.take_sublist _ _) (sorted_sortByCountDesc _)
  · rw [hmain]
    exact take_pos_ne_nil _ _ hsne (Nat.le_max_left 1 _)
  · rw [hmain]
    exact head?_take_pos _ _ (Nat.le_max_left 1 _)

/-- C1 counterexample: for station `a` with trip counts [60, 30, 10] and
pct = 80, the code keeps only the 60-count pair (cumulative shares 60,
90, 100; only 60 is at most 80), while the claimed
accumulate-until-inclusive rule would keep the 60- and 30-count pairs. -/
theorem C1_counterexample :
    get_routes_by_station_coverage rowsC1 80 "a" ≠
      claimedStationCoverage rowsC1 80 "a" := by
  norm_num [get_routes_by_station_coverage, claimedStationCoverage, stationRows,
    sortByCountDesc, List.insertionSort, List.orderedInsert, cumRows, accumUntil,
    sumCounts, countGE, rowsC1, exRow, List.filter]

/-- C1 witness: the amended characterization instantiated at the concrete
station `a` of `rowsC1` with pct = 80. -/
theorem C1_witness :
    get_routes_by_station_coverage rowsC1 80 "a" =
      (sortByCountDesc (stationRows rowsC1 "a")).take
        (max 1 ((cumRows 0 (sortByCountDesc (stationRows rowsC1 "a"))).countP
          (fun cr => ((cr.1 : ℚ) / (sumCounts (stationRows rowsC1 "a") : ℚ)) * 100 ≤ 80))) ∧
    List.Sorted countGE (get_routes_by_station_coverage rowsC1 80 "a") ∧
    get_routes_by_station_coverage rowsC1 80 "a" ≠ [] ∧
    (get_routes_by_station_coverage rowsC1 80 "a").head? =
      (sortByCountDesc (stationRows rowsC1 "a")).head? :=
  C1_per_station_coverage rowsC1 80 "a" (by decide)

theorem generateRouteAux_facts (v : String → Option String)
    (f t : StationCoordinate) (o : Nat → AttemptOutcome) :
    ∀ (n : Nat), 1 ≤ n → ∀ (a : Nat) (st : GenStats) (sl : Nat),
      (((generateRouteAux v f t o n a st sl).stats.routes_generated =
          st.routes_generated + 1 ∧
        (generateRouteAux v f t o n a st sl).stats.routes_failed =
          st.routes_failed ∧
        (generateRouteAux v f t o n a st sl).geometry.isSome = true) ∨
       ((generateRouteAux v f t o n a st sl).stats.routes_generated =
          st.routes_generated ∧
        (generateRouteAux v f t o n a st sl).stats.routes_failed =
          st.routes_failed + 1 ∧
        (generateRouteAux v f t o n a st sl).geometry = none)) ∧
      st.total_requests + 1 ≤ (generateRouteAux v f t o n a st sl).stats.total_requests ∧
      (generateRouteAux v f t o n a st sl).stats.total_requests ≤
        st.total_requests + n ∧
      (∃ d, (generateRouteAux v f t o n a st sl).stats.failed_routes =
        st.failed_routes ++ d) := by
  intro n
  induction n with
  | zero => intro h; omega
  | succ m ih =>
    intro _ a st sl
    cases ho : o a with
    | ok legs =>
      cases legs with
      | nil =>
        simp only [generateRouteAux, ho]
        refine ⟨Or.inr ⟨rfl, rfl, by simp⟩, ?_, ?_, [],
          by simp [GenStats.bumpRequests, GenStats.addFailed]⟩ <;>
          simp [GenStats.bumpRequests, GenStats.addFailed]
      | cons leg rest =>
        simp only [generateRouteAux, ho]
        refine ⟨Or.inl ⟨rfl, rfl, by simp⟩, ?_, ?_, [],
          by simp [GenStats.bumpRequests, GenStats.addGenerated]⟩ <;>
          simp [GenStats.bumpRequests, GenStats.addGenerated]
    | httpError status msg =>
      by_cases h400 : status = 400
      · simp only [generateRouteAux, ho, if_pos h400]
        refine ⟨Or.inr ⟨rfl, rfl, by simp⟩, ?_, ?_,
          [⟨f.station_id, t.station_id, "Route not possible (HTTP 400)",
            "HTTPError"⟩], ?_⟩ <;>
          simp [GenStats.bumpRequests, GenStats.addFailed, GenStats.addLedger]
      · by_cases hm : 0 < m
        · simp only [generateRouteAux, ho, if_neg h400, if_pos hm]
          have hfacts := ih hm (a + 1) st.bumpRequests (sl + 1)
          refine ⟨?_, ?_, ?_, ?_⟩
          · rcases hfacts.1 with hgen | hfail
            · exact Or.inl ⟨by rw [hgen.1]; rfl, by rw [hgen.2.1]; rfl, hgen.2.2⟩
            · exact Or.inr ⟨by rw [hfail.1]; rfl, by rw [hfail.2.1]; rfl, hfail.2.2⟩
          · have h2 := hfacts.2.1
            have hb : st.bumpRequests.total_requests = st.total_requests + 1 := rfl
            omega
          · have h2 := hfacts.2.2.1
            have hb : st.bumpRequests.total_requests = st.total_requests + 1 := rfl
            omega
          · obtain ⟨d, hd⟩ := hfacts.2.2.2
            exact ⟨d, by rw [hd]; rfl⟩
        · simp only [generateRouteAux, ho, if_neg h400, if_neg hm]
          refine ⟨Or.inr ⟨rfl, rfl, by simp⟩, ?_, ?_, [],
            by simp [GenStats.bumpRequests, GenStats.addFailed]⟩ <;>
            simp [GenStats.bumpRequests, GenStats.addFailed]
    | transportError msg etype =>
      by_cases hm : 0 < m
      · simp only [generateRouteAux, ho, if_pos hm]
        have hfacts := ih hm (a + 1) st.bumpRequests (sl + 1)
        refine ⟨?_, ?_, ?_, ?_⟩
        · rcases hfacts.1 with hgen | hfail
          · exact Or.inl ⟨by rw [hgen.1]; rfl, by rw [hgen.2.1]; rfl, hgen.2.2⟩
          · exact Or.inr ⟨by rw [hfail.1]; rfl, by rw [hfail.2.1]; rfl, hfail.2.2⟩
        · have h2 := hfacts.2.1
          have hb : st.bumpRequests.total_requests = st.total_requests + 1 := rfl
          omega
        · have h2 := hfacts.2.2.1
          have hb : st.bumpRequests.total_requests = st.total_requests + 1 := rfl
          omega
        · obtain ⟨d, hd⟩ := hfacts.2.2.2
          exact ⟨d, by rw [hd]; rfl⟩
      · simp only [generateRouteAux, ho, if_neg hm]
        refine ⟨Or.inr ⟨rfl, rfl, by simp⟩, ?_, ?_, [⟨f.station_id, t.station_id,
          msg, etype⟩], ?_⟩ <;>
          simp [GenStats.bumpRequests, GenStats.addFailed, GenStats.addLedger]
    | unexpectedError msg etype =>
      simp only [generateRouteAux, ho]
      refine ⟨Or.inr ⟨rfl, rfl, by simp⟩, ?_, ?_, [⟨f.station_id, t.station_id,
        msg, etype⟩], ?_⟩ <;>
        simp [GenStats.bumpRequests, GenStats.addFailed, GenStats.addLedger]

theorem generateRouteAux_geometry_indep (v : String → Option String)
    (f t : StationCoordinate) (o : Nat → AttemptOutcome) :
    ∀ (n a : Nat) (st : GenStats) (sl : Nat) (st' : GenStats) (sl' : Nat),
      (generateRouteAux v f t o n a st sl).geometry =
        (generateRouteAux v f t o n a st' sl').geometry := by
  intro n
  induction n with
  | zero => intro a st sl st' sl'; rfl
  | succ m ih =>
    intro a st sl st' sl'
    cases ho : o a with
    | ok legs =>
      cases legs with
      | nil => simp only [generateRouteAux, ho]
      | cons leg rest => simp only [generateRouteAux, ho]
    | httpError status msg =>
      by_cases h400 : status = 400
      · simp only [generateRouteAux, ho, if_pos h400]
      · by_cases hm : 0 < m
        · simp only [generateRouteAux, ho, if_neg h400, if_pos hm]
          exact ih (a + 1) st.bumpRequests (sl + 1) st'.bumpRequests (sl' + 1)
        · simp only [generateRouteAux, ho, if_neg h400, if_neg hm]
    | transportError msg etype =>
      by_cases hm : 0 < m
      · simp only [generateRouteAux, ho, if_pos hm]
        exact ih (a + 1) st.bumpRequests (sl + 1) st'.bumpRequests (sl' + 1)
      · simp only [generateRouteAux, ho, if_neg hm]
    | unexpectedError msg etype => simp only [generateRouteAux, ho]

theorem generateRouteAux_geometry_key (v : String → Option String)
    (f t : StationCoordinate) (o : Nat → AttemptOutcome) :
    ∀ (n a : Nat) (st : GenStats) (sl : Nat) (g : RouteGeometry),
      (generateRouteAux v f t o n a st sl).geometry = some g →
      g.route_key = routeKeyOf f.station_id t.station_id ∧
      g.departure_station_id = f.station_id ∧
      g.return_station_id = t.station_id := by
  intro n
  induction n with
  | zero => intro a st sl g h; cases h
  | succ m ih =>
    intro a st sl g h
    cases ho : o a with
    | ok legs =>
      cases legs with
      | nil => simp only [generateRouteAux, ho] at h; cases h
      | cons leg rest =>
        simp only [generateRouteAux, ho, Option.some.injEq] at h
        rw [← h]
        exact ⟨rfl, rfl, rfl⟩
    | httpError status msg =>
      simp only [generateRouteAux, ho] at h
      by_cases h400 : status = 400
      · rw [if_pos h400] at h; cases h
      · rw [if_neg h400] at h
        by_cases hm : 0 < m
        · rw [if_pos hm] at h
          exact ih (a + 1) st.bumpRequests (sl + 1) g h
        · rw [if_neg hm] at h; cases h
    | transportError msg etype =>
      simp only [generateRouteAux, ho] at h
      by_cases hm : 0 < m
      · rw [if_pos hm] at h
        exact ih (a + 1) st.bumpRequests (sl + 1) g h
      · rw [if_neg hm] at h; cases h
    | unexpectedError msg etype =>
      simp only [generateRouteAux, ho] at h
      cases h

theorem generateRouteAux_step_transport (v : String → Option String)
    (f t : StationCoordinate) (o : Nat → AttemptOutcome) (msg etype : String)
    (m a : Nat) (st : GenStats) (sl : Nat)
    (h : o a = .transportError msg etype) (hm : 0 < m) :
    generateRouteAux v f t o (m + 1) a st sl =
      generateRouteAux v f t o m (a + 1) st.bumpRequests (sl + 1) := by
  conv_lhs => rw [generateRouteAux]
  simp only [h, if_pos hm]

theorem generateRouteAux_step_http (v : String → Option String)
    (f t : StationCoordinate) (o : Nat → AttemptOutcome) (status : Nat) (msg : String)
    (m a : Nat) (st : GenStats) (sl : Nat)
    (h : o a = .httpError status msg) (hns : status ≠ 400) (hm : 0 < m) :
    generateRouteAux v f t o (m + 1) a st sl =
      generateRouteAux v f t o m (a + 1) st.bumpRequests (sl + 1) := by
  conv_lhs => rw [generateRouteAux]
  simp only [h, if_neg hns, if_pos hm]

theorem generateRouteAux_transport_all (v : String → Option String)
    (f t : StationCoordinate) (o : Nat → AttemptOutcome) (msg etype : String)
    (hall : ∀ k, o k = .transportError msg etype) :
    ∀ (n : Nat), 1 ≤ n → ∀ (a : Nat) (st : GenStats) (sl : Nat),
      generateRouteAux v f t o n a st sl =
        ⟨none, ⟨st.routes_generated, st.routes_failed + 1, st.total_requests + n,
          st.failed_routes ++ [⟨f.station_id, t.station_id, msg, etype⟩]⟩,
         sl + (n - 1)⟩ := by
  intro n
  induction n with
  | zero => intro h; omega
  | succ m ih =>
    intro _ a st sl
    cases m with
    | zero =>
      simp only [generateRouteAux, hall a, if_neg (lt_irrefl 0)]
      rfl
    | succ m' =>
      rw [generateRouteAux_step_transport v f t o msg etype (m' + 1) a st sl
        (hall a) (Nat.succ_pos m')]
      rw [ih (Nat.succ_le_succ (Nat.zero_le m')) (a + 1) st.bumpRequests (sl + 1)]
      simp [CallResult.mk.injEq, GenStats.mk.injEq, GenStats.bumpRequests]
      omega

theorem generateRouteAux_http_all (v : String → Option String)
    (f t : StationCoordinate) (o : Nat → AttemptOutcome) (status : Nat) (msg : String)
    (hall : ∀ k, o k = .httpError status msg) (hns : status ≠ 400) :
    ∀ (n : Nat), 1 ≤ n → ∀ (a : Nat) (st : GenStats) (sl : Nat),
      generateRouteAux v f t o n a st sl =
        ⟨none, ⟨st.routes_generated, st.routes_failed + 1, st.total_requests + n,
          st.failed_routes⟩, sl + (n - 1)⟩ := by
  intro n
  induction n with
  | zero => intro h; omega
  | succ m ih =>
    intro _ a st sl
    cases m with
    | zero =>
      simp only [generateRouteAux, hall a, if_neg hns, if_neg (lt_irrefl 0)]
      rfl
    | succ m' =>
      rw [generateRouteAux_step_http v f t o status msg (m' + 1) a st sl
        (hall a) hns (Nat.succ_pos m')]
      rw [ih (Nat.succ_le_succ (Nat.zero_le m')) (a + 1) st.bumpRequests (sl + 1)]
      simp [CallResult.mk.injEq, GenStats.mk.injEq, GenStats.bumpRequests]
      omega

theorem generateRouteAux_no_route (v : String → Option String)
    (f t : StationCoordinate) (o : Nat → AttemptOutcome) (n a : Nat)
    (st : GenStats) (sl : Nat) (h : o a = .ok []) :
    generateRouteAux v f t o (n + 1) a st sl = ⟨none, st.bumpRequests.addFailed, sl⟩ := by
  simp only [generateRouteAux, h]

theorem generateRouteAux_http400 (v : String → Option String)
    (f t : StationCoordinate) (o : Nat → AttemptOutcome) (n a : Nat)
    (st : GenStats) (sl : Nat) (msg : String) (h : o a = .httpError 400 msg) :
    generateRouteAux v f t o (n + 1) a st sl =
      ⟨none, (st.bumpRequests.addLedger ⟨f.station_id, t.station_id,
        "Route not possible (HTTP 400)", "HTTPError"⟩).addFailed, sl⟩ := by
  simp [generateRouteAux, h]

theorem generateRouteAux_unexpected (v : String → Option String)
    (f t : StationCoordinate) (o : Nat → AttemptOutcome) (n a : Nat)
    (st : GenStats) (sl : Nat) (msg etype : String)
    (h : o a = .unexpectedError msg etype) :
    generateRouteAux v f t o (n + 1) a st sl =
      ⟨none, (st.bumpRequests.addLedger ⟨f.station_id, t.station_id,
        msg, etype⟩).addFailed, sl⟩ := by
  simp only [generateRouteAux, h]

theorem generateBatchAux_facts (v : String → Option String)
    (o2 : Nat → Nat → AttemptOutcome) (m : Nat) (hm : 1 ≤ m) :
    ∀ (pairs : List (StationCoordinate × StationCoordinate)) (i : Nat) (st : GenStats),
      ((generateBatchAux v o2 m pairs i st).2.routes_generated +
        (generateBatchAux v o2 m pairs i st).2.routes_failed =
        st.routes_generated + st.routes_failed + pairs.length) ∧
      ((generateBatchAux v o2 m pairs i st).2.routes_generated =
        st.routes_generated + (generateBatchAux v o2 m pairs i st).1.length) ∧
      ((generateBatchAux v o2 m pairs i st).2.routes_generated +
        (generateBatchAux v o2 m pairs i st).2.routes_failed + st.total_requests ≤
        st.routes_generated + st.routes_failed +
        (generateBatchAux v o2 m pairs i st).2.total_requests) ∧
      (∃ d, (generateBatchAux v o2 m pairs i st).2.failed_routes =
        st.failed_routes ++ d) := by
  intro pairs
  induction pairs with
  | nil =>
    intro i st
    refine ⟨by simp [generateBatchAux], by simp [generateBatchAux],
      by simp [generateBatchAux], [], by simp [generateBatchAux]⟩
  | cons pr rest ih =>
    intro i st
    obtain ⟨f, t⟩ := pr
    have hc := generateRouteAux_facts v f t (o2 i) m hm 1 st 0
    have hIH := ih (i + 1) (generateRouteAux v (f, t).1 (f, t).2 (o2 i) m 1 st 0).stats
    simp only [generateBatchAux, generate_route] at *
    rcases hc.1 with ⟨hg1, hg2, hg3⟩ | ⟨hf1, hf2, hf3⟩
    · obtain ⟨g, hgeq⟩ := Option.isSome_iff_exists.mp hg3
      simp only [hgeq] at *
      obtain ⟨d2, hd2⟩ := hIH.2.2.2
      refine ⟨?_, ?_, ?_, ?_⟩
      · have := hIH.1
        simp only [List.length_cons]
        omega
      · have := hIH.2.1
        simp only [List.length_cons]
        omega
      · have h3 := hIH.2.2.1
        have h4 := hc.2.1
        omega
      · obtain ⟨d1, hd1⟩ := hc.2.2.2
        exact ⟨d1 ++ d2, by rw [hd2, hd1, List.append_assoc]⟩
    · simp only [hf3] at *
      obtain ⟨d2, hd2⟩ := hIH.2.2.2
      refine ⟨?_, ?_, ?_, ?_⟩
      · have := hIH.1
        simp only [List.length_cons]
        omega
      · have := hIH.2.1
        omega
      · have h3 := hIH.2.2.1
        have h4 := hc.2.1
        omega
      · obtain ⟨d1, hd1⟩ := hc.2.2.2
        exact ⟨d1 ++ d2, by rw [hd2, hd1, List.append_assoc]⟩

theorem generateBatchAux_geoms (v : String → Option String)
    (o2 : Nat → Nat → AttemptOutcome) (m : Nat) :
    ∀ (pairs : List (StationCoordinate × StationCoordinate)) (i : Nat) (st : GenStats),
      (generateBatchAux v o2 m pairs i st).1 =
        (List.enumFrom i pairs).filterMap
          (fun p => (generate_route v p.2.1 p.2.2 (o2 p.1) m GenStats.start).geometry) := by
  intro pairs
  induction pairs with
  | nil => intro i st; rfl
  | cons pr rest ih =>
    intro i st
    obtain ⟨f, t⟩ := pr
    have hind := generateRouteAux_geometry_indep v f t (o2 i) m 1 st 0 GenStats.start 0
    simp only [generateBatchAux, generate_route, List.enumFrom, List.filterMap_cons]
    cases hg : (generateRouteAux v f t (o2 i) m 1 GenStats.start 0).geometry with
    | none =>
      rw [hg] at hind
      simp only [hind, ih (i + 1), generate_route]
    | some g =>
      rw [hg] at hind
      simp only [hind, ih (i + 1), generate_route]

/-- C3: an HTTP 400 response is recorded as a definitive
route-not-possible failure after a single request with no sleeps; a
transport error on every attempt with `max_retries = 3` yields a
definitive retry-exhausted failure after exactly 3 requests with the
fixed delay slept twice (between consecutive attempts) and the last
error recorded; and no definitive failure (HTTP 400, empty legs, or an
unexpected error) ever triggers a further attempt or a sleep. -/
theorem C3_retry_behavior :
    (∀ (v : String → Option String) (f t : StationCoordinate)
       (o : Nat → AttemptOutcome) (m : Nat) (st : GenStats) (msg : String),
       1 ≤ m → o 1 = .httpError 400 msg →
       generate_route v f t o m st =
         ⟨none, (st.bumpRequests.addLedger ⟨f.station_id, t.station_id,
           "Route not possible (HTTP 400)", "HTTPError"⟩).addFailed, 0⟩) ∧
    (∀ (v : String → Option String) (f t : StationCoordinate)
       (o : Nat → AttemptOutcome) (st : GenStats) (msg etype : String),
       (∀ k, o k = .transportError msg etype) →
       generate_route v f t o 3 st =
         ⟨none, ⟨st.routes_generated, st.routes_failed + 1,
           st.total_requests + 3,
           st.failed_routes ++ [⟨f.station_id, t.station_id, msg, etype⟩]⟩, 2⟩) ∧
    (∀ (v : String → Option String) (f t : StationCoordinate)
       (o : Nat → AttemptOutcome) (n a : Nat) (st : GenStats) (sl : Nat)
       (msg etype : String),
       (o a = .httpError 400 msg ∨ o a = .ok [] ∨
        o a = .unexpectedError msg etype) →
       (generateRouteAux v f t o (n + 1) a st sl).stats.total_requests =
         st.total_requests + 1 ∧
       (generateRouteAux v f t o (n + 1) a st sl).sleeps = sl) := by
  refine ⟨?_, ?_, ?_⟩
  · intro v f t o m st msg hm h1
    obtain ⟨k, rfl⟩ : ∃ k, m = k + 1 := ⟨m - 1, by omega⟩
    exact generateRouteAux_http400 v f t o k 1 st 0 msg h1
  · intro v f t o st msg etype hall
    exact generateRouteAux_transport_all v f t o msg etype hall 3 (by omega) 1 st 0
  · intro v f t o n a st sl msg etype hdef
    rcases hdef with h | h | h
    · rw [generateRouteAux_http400 v f t o n a st sl msg h]
      exact ⟨rfl, rfl⟩
    · rw [generateRouteAux_no_route v f t o n a st sl h]
      exact ⟨rfl, rfl⟩
    · rw [generateRouteAux_unexpected v f t o n a st sl msg etype h]
      exact ⟨rfl, rfl⟩

/-- C3 witness: the three behaviors instantiated at concrete calls —
HTTP 400 on the first attempt with `max_retries = 3`, a timeout on every
attempt with `max_retries = 3`, and a definitive empty-legs response. -/
theorem C3_witness :
    (generate_route (fun s => some s) (exSt "030") (exSt "067")
       (fun _ => .httpError 400 ("bad request")) 3 GenStats.start =
       ⟨none, (GenStats.start.bumpRequests.addLedger ⟨"030", "067",
         "Route not possible (HTTP 400)", "HTTPError"⟩).addFailed, 0⟩) ∧
    (generate_route (fun s => some s) (exSt "030") (exSt "067")
       (fun _ => .transportError ("timeout") ("ConnectTimeout")) 3 GenStats.start =
       ⟨none, ⟨0, 0 + 1, 0 + 3,
         [] ++ [⟨"030", "067", "timeout", "ConnectTimeout"⟩]⟩, 2⟩) ∧
    ((generateRouteAux (fun s => some s) (exSt "030") (exSt "067")
        (fun _ => .ok []) (2 + 1) 1 GenStats.start 0).stats.total_requests =
        GenStats.start.total_requests + 1 ∧
     (generateRouteAux (fun s => some s) (exSt "030") (exSt "067")
        (fun _ => .ok []) (2 + 1) 1 GenStats.start 0).sleeps = 0) :=
  ⟨C3_retry_behavior.1 (fun s => some s) (exSt "030") (exSt "067")
      (fun _ => .httpError 400 ("bad request")) 3 GenStats.start ("bad request")
      (by omega) rfl,
   C3_retry_behavior.2.1 (fun s => some s) (exSt "030") (exSt "067")
      (fun _ => .transportError ("timeout") ("ConnectTimeout")) GenStats.start
      ("timeout") ("ConnectTimeout") (fun _ => rfl),
   C3_retry_behavior.2.2 (fun s => some s) (exSt "030") (exSt "067")
      (fun _ => .ok []) 2 1 GenStats.start 0 ("x") ("y") (Or.inr (Or.inl rfl))⟩

/-- C10: assuming `max_retries >= 1`, every completed `generate_route`
call increments exactly one of `routes_generated` / `routes_failed` by
one and `total_requests` by between 1 and `max_retries`; over a batch,
`routes_generated + routes_failed` grows by the number of calls, the
batch result length equals the `routes_generated` increment, and from
fresh counters `routes_generated + routes_failed` never exceeds
`total_requests`. -/
theorem C10_counters (v : String → Option String) (f t : StationCoordinate)
    (o : Nat → AttemptOutcome) (o2 : Nat → Nat → AttemptOutcome) (m : Nat)
    (st : GenStats) (pairs : List (StationCoordinate × StationCoordinate))
    (hm : 1 ≤ m) :
    (((generate_route v f t o m st).stats.routes_generated =
        st.routes_generated + 1 ∧
      (generate_route v f t o m st).stats.routes_failed = st.routes_failed) ∨
     ((generate_route v f t o m st).stats.routes_generated =
        st.routes_generated ∧
      (generate_route v f t o m st).stats.routes_failed =
        st.routes_failed + 1)) ∧
    st.total_requests + 1 ≤ (generate_route v f t o m st).stats.total_requests ∧
    (generate_route v f t o m st).stats.total_requests ≤ st.total_requests + m ∧
    ((generate_batch v o2 m pairs st).2.routes_generated +
      (generate_batch v o2 m pairs st).2.routes_failed =
      st.routes_generated + st.routes_failed + pairs.length) ∧
    ((generate_batch v o2 m pairs st).2.routes_generated =
      st.routes_generated + (generate_batch v o2 m pairs st).1.length) ∧
    ((generate_batch v o2 m pairs GenStats.start).2.routes_generated +
      (generate_batch v o2 m pairs GenStats.start).2.routes_failed ≤
      (generate_batch v o2 m pairs GenStats.start).2.total_requests) := by
  have hc := generateRouteAux_facts v f t o m hm 1 st 0
  have hb := generateBatchAux_facts v o2 m hm pairs 0 st
  have hb0 := generateBatchAux_facts v o2 m hm pairs 0 GenStats.start
  refine ⟨?_, hc.2.1, hc.2.2.1, hb.1, hb.2.1, ?_⟩
  · rcases hc.1 with ⟨h1, h2, _⟩ | ⟨h1, h2, _⟩
    · exact Or.inl ⟨h1, h2⟩
    · exact Or.inr ⟨h1, h2⟩
  · have h1 := hb0.1
    have h2 := hb0.2.2.1
    have hz1 : GenStats.start.routes_generated = 0 := rfl
    have hz2 : GenStats.start.routes_failed = 0 := rfl
    have hz3 : GenStats.start.total_requests = 0 := rfl
    simp only [generate_batch]
    omega

/-- C10 witness: the counter invariants instantiated at a concrete
successful call and a one-pair batch with `max_retries = 3`. -/
theorem C10_witness :
    (((generate_route (fun s => some s) (exSt "030") (exSt "067")
         (fun _ => .ok [⟨"pl", 1, 60⟩]) 3 GenStats.start).stats.routes_generated =
        GenStats.start.routes_generated + 1 ∧
      (generate_route (fun s => some s) (exSt "030") (exSt "067")
         (fun _ => .ok [⟨"pl", 1, 60⟩]) 3 GenStats.start).stats.routes_failed =
        GenStats.start.routes_failed) ∨
     ((generate_route (fun s => some s) (exSt "030") (exSt "067")
         (fun _ => .ok [⟨"pl", 1, 60⟩]) 3 GenStats.start).stats.routes_generated =
        GenStats.start.routes_generated ∧
      (generate_route (fun s => some s) (exSt "030") (exSt "067")
         (fun _ => .ok [⟨"pl", 1, 60⟩]) 3 GenStats.start).stats.routes_failed =
        GenStats.start.routes_failed + 1)) ∧
    GenStats.start.total_requests + 1 ≤
      (generate_route (fun s => some s) (exSt "030") (exSt "067")
        (fun _ => .ok [⟨"pl", 1, 60⟩]) 3 GenStats.start).stats.total_requests ∧
    (generate_route (fun s => some s) (exSt "030") (exSt "067")
       (fun _ => .ok [⟨"pl", 1, 60⟩]) 3 GenStats.start).stats.total_requests ≤
      GenStats.start.total_requests + 3 ∧
    ((generate_batch (fun s => some s) (fun _ _ => .ok [⟨"pl", 1, 60⟩]) 3
        [(exSt "030", exSt "067")] GenStats.start).2.routes_generated +
      (generate_batch (fun s => some s) (fun _ _ => .ok [⟨"pl", 1, 60⟩]) 3
        [(exSt "030", exSt "067")] GenStats.start).2.routes_failed =
      GenStats.start.routes_generated + GenStats.start.routes_failed +
        [(exSt "030", exSt "067")].length) ∧
    ((generate_batch (fun s => some s) (fun _ _ => .ok [⟨"pl", 1, 60⟩]) 3
        [(exSt "030", exSt "067")] GenStats.start).2.routes_generated =
      GenStats.start.routes_generated +
        (generate_batch (fun s => some s) (fun _ _ => .ok [⟨"pl", 1, 60⟩]) 3
          [(exSt "030", exSt "067")] GenStats.start).1.length) ∧
    ((generate_batch (fun s => some s) (fun _ _ => .ok [⟨"pl", 1, 60⟩]) 3
        [(exSt "030", exSt "067")] GenStats.start).2.routes_generated +
      (generate_batch (fun s => some s) (fun _ _ => .ok [⟨"pl", 1, 60⟩]) 3
        [(exSt "030", exSt "067")] GenStats.start).2.routes_failed ≤
      (generate_batch (fun s => some s) (fun _ _ => .ok [⟨"pl", 1, 60⟩]) 3
        [(exSt "030", exSt "067")] GenStats.start).2.total_requests) :=
  C10_counters (fun s => some s) (exSt "030") (exSt "067")
    (fun _ => .ok [⟨"pl", 1, 60⟩]) (fun _ _ => .ok [⟨"pl", 1, 60⟩]) 3
    GenStats.start [(exSt "030", exSt "067")] (by omega)

/-- C5 (amended): one failed pair never aborts the batch —
`generate_batch` returns exactly the per-pair successes in order, and the
failure ledger only ever grows; HTTP-400 failures, transport-error retry
exhaustion and unexpected errors are recorded in the ledger with station
pair, reason and error class (see `C3_retry_behavior`), but a `no_route`
failure (response with no legs) and a non-400 HTTP-error retry
exhaustion increment the failure counter without adding a ledger entry.
(The original claim that every per-pair failure, including `no_route`,
is recorded in the ledger is false.) -/
theorem C5_batch_failures (v : String → Option String)
    (o2 : Nat → Nat → AttemptOutcome) (o : Nat → AttemptOutcome)
    (m : Nat) (pairs : List (StationCoordinate × StationCoordinate))
    (st : GenStats) (f t : StationCoordinate) (msg etype : String) (status : Nat)
    (hm : 1 ≤ m) :
    ((generate_batch v o2 m pairs st).1 =
      (List.enumFrom 0 pairs).filterMap
        (fun p => (generate_route v p.2.1 p.2.2 (o2 p.1) m GenStats.start).geometry)) ∧
    (∃ d, (generate_batch v o2 m pairs st).2.failed_routes =
      st.failed_routes ++ d) ∧
    (o 1 = .ok [] →
      generate_route v f t o m st = ⟨none, st.bumpRequests.addFailed, 0⟩) ∧
    ((∀ k, o k = .httpError status msg) → status ≠ 400 →
      generate_route v f t o m st =
        ⟨none, ⟨st.routes_generated, st.routes_failed + 1,
          st.total_requests + m, st.failed_routes⟩, m - 1⟩) ∧
    (o 1 = .unexpectedError msg etype →
      generate_route v f t o m st =
        ⟨none, (st.bumpRequests.addLedger ⟨f.station_id, t.station_id,
          msg, etype⟩).addFailed, 0⟩) := by
  obtain ⟨k, rfl⟩ : ∃ k, m = k + 1 := ⟨m - 1, by omega⟩
  refine ⟨generateBatchAux_geoms v o2 (k + 1) pairs 0 st,
    (generateBatchAux_facts v o2 (k + 1) hm pairs 0 st).2.2.2, ?_, ?_, ?_⟩
  · intro h1
    exact generateRouteAux_no_route v f t o k 1 st 0 h1
  · intro hall hns
    have h := generateRouteAux_http_all v f t o status msg hall hns (k + 1) hm 1 st 0
    rw [generate_route, h]
    simp
  · intro h1
    exact generateRouteAux_unexpected v f t o k 1 st 0 msg etype h1

/-- C5 counterexample: a one-pair batch whose routing response has no
legs (`no_route`) increments the failure counter, yet the failure ledger
stays empty — refuting the claim that every per-pair failure, including
`no_route`, is recorded in the ledger with its station pair, reason and
error class. -/
theorem C5_counterexample :
    (generate_batch (fun s => some s) (fun _ _ => .ok []) 3
       [(exSt "030", exSt "067")] GenStats.start).2.routes_failed = 1 ∧
    (generate_batch (fun s => some s) (fun _ _ => .ok []) 3
       [(exSt "030", exSt "067")] GenStats.start).2.failed_routes = [] ∧
    (generate_batch (fun s => some s) (fun _ _ => .ok []) 3
       [(exSt "030", exSt "067")] GenStats.start).1 = [] := by
  refine ⟨rfl, rfl, rfl⟩

/-- C5 witness: the amended batch/ledger behavior instantiated at a
concrete empty-legs call, a concrete HTTP-503 exhaustion, and a concrete
unexpected error, each with `max_retries = 3`. -/
theorem C5_witness :
    ((generate_batch (fun s => some s) (fun _ _ => .ok []) 3
        [(exSt "030", exSt "067")] GenStats.start).1 =
      (List.enumFrom 0 [(exSt "030", exSt "067")]).filterMap
        (fun p => (generate_route (fun s => some s) p.2.1 p.2.2
          ((fun _ _ => .ok []) p.1) 3 GenStats.start).geometry)) ∧
    (∃ d, (generate_batch (fun s => some s) (fun _ _ => .ok []) 3
        [(exSt "030", exSt "067")] GenStats.start).2.failed_routes =
      GenStats.start.failed_routes ++ d) ∧
    (generate_route (fun s => some s) (exSt "030") (exSt "067")
       (fun _ => .ok []) 3 GenStats.start =
       ⟨none, GenStats.start.bumpRequests.addFailed, 0⟩) ∧
    (generate_route (fun s => some s) (exSt "030") (exSt "067")
       (fun _ => .httpError 503 ("server error")) 3 GenStats.start =
       ⟨none, ⟨0, 0 + 1, 0 + 3, []⟩, 3 - 1⟩) ∧
    (generate_route (fun s => some s) (exSt "030") (exSt "067")
       (fun _ => .unexpectedError ("boom") ("ValueError")) 3 GenStats.start =
       ⟨none, (GenStats.start.bumpRequests.addLedger ⟨"030", "067",
         "boom", "ValueError"⟩).addFailed, 0⟩) := by
  have h1 := C5_batch_failures (fun s => some s) (fun _ _ => .ok [])
    (fun _ => .ok []) 3 [(exSt "030", exSt "067")] GenStats.start
    (exSt "030") (exSt "067") ("x") ("y") 0 (by omega)
  have h2 := C5_batch_failures (fun s => some s) (fun _ _ => .ok [])
    (fun _ => .httpError 503 ("server error")) 3 [(exSt "030", exSt "067")]
    GenStats.start (exSt "030") (exSt "067") ("server error") ("y") 503 (by omega)
  have h3 := C5_batch_failures (fun s => some s) (fun _ _ => .ok [])
    (fun _ => .unexpectedError ("boom") ("ValueError")) 3
    [(exSt "030", exSt "067")] GenStats.start (exSt "030") (exSt "067")
    ("boom") ("ValueError") 0 (by omega)
  exact ⟨h1.1, h1.2.1, h1.2.2.1 rfl,
    h2.2.2.2.1 (fun _ => rfl) (by omega), h3.2.2.2.2 rfl⟩

/-- C8: the canonical key is symmetric — `key(A,B) = key(B,A)` for all
station identifiers with `A ≠ B` — and the route key attached to any
successfully generated geometry is that same canonical key regardless of
which direction was requested from the routing service. -/
theorem C8_route_key_symmetry (A B : String) (_hAB : A ≠ B) :
    routeKeyOf A B = routeKeyOf B A ∧
    (∀ (v : String → Option String) (f t : StationCoordinate)
       (o : Nat → AttemptOutcome) (m : Nat) (st : GenStats) (g : RouteGeometry),
       ((f.station_id = A ∧ t.station_id = B) ∨
        (f.station_id = B ∧ t.station_id = A)) →
       (generate_route v f t o m st).geometry = some g →
       g.route_key = routeKeyOf A B) := by
  refine ⟨routeKeyOf_comm A B, ?_⟩
  intro v f t o m st g hdir hg
  have hkey := (generateRouteAux_geometry_key v f t o m 1 st 0 g hg).1
  rcases hdir with ⟨h1, h2⟩ | ⟨h1, h2⟩
  · rw [hkey, h1, h2]
  · rw [hkey, h1, h2, routeKeyOf_comm]

/-- C8 witness: key symmetry for stations 030 and 067, and a geometry
generated for the reverse direction 067 → 030 still carries the canonical
key of the pair (030, 067). -/
theorem C8_witness :
    routeKeyOf "030" "067" = routeKeyOf "067" "030" ∧
    (RouteGeometry.mk (routeKeyOf "067" "030") "067" "030" "pl" 1
        ((60 : ℚ) / 60)).route_key = routeKeyOf "030" "067" :=
  ⟨(C8_route_key_symmetry "030" "067" (by decide)).1,
   (C8_route_key_symmetry "030" "067" (by decide)).2 (fun s => some s)
     (exSt "067") (exSt "030") (fun _ => .ok [⟨"pl", 1, 60⟩]) 1 GenStats.start
     (RouteGeometry.mk (routeKeyOf "067" "030") "067" "030" "pl" 1 ((60 : ℚ) / 60))
     (Or.inr ⟨rfl, rfl⟩) rfl⟩

theorem charListLt_irrefl (as : List Char) : charListLt as as = false := by
  induction as with
  | nil => rfl
  | cons a t ih => simp [charListLt, lt_irrefl, ih]

theorem pyStrLt_irrefl (a : String) : pyStrLt a a = false :=
  charListLt_irrefl a.data

theorem organize_by_station_cons (r : RouteGeometry) (rs : List RouteGeometry)
    (bmap : List (String × RouteStatistics)) (s : String) :
    organize_by_station (r :: rs) bmap s =
      (if r.departure_station_id == s then [r] else []) ++
      (match lookupA bmap r.route_key with
       | some rev =>
         if rev.departure_station_id == s then [reverseGeometry r rev] else []
       | none => []) ++
      organize_by_station rs bmap s := by
  simp only [organize_by_station, organizeEntries, List.flatMap_cons]
  cases hl : lookupA bmap r.route_key with
  | none =>
    by_cases hd : r.departure_station_id == s
    · simp [List.filter_cons, List.filter_append, hd]
    · simp only [Bool.not_eq_true] at hd
      simp [List.filter_cons, List.filter_append, hd]
  | some rev =>
    by_cases hd : r.departure_station_id == s
    · by_cases hr : rev.departure_station_id == s
      · simp [List.filter_cons, List.filter_append, hd, hr, reverseGeometry]
      · simp only [Bool.not_eq_true] at hr
        simp [List.filter_cons, List.filter_append, hd, hr, reverseGeometry]
    · simp only [Bool.not_eq_true] at hd
      by_cases hr : rev.departure_station_id == s
      · simp [List.filter_cons, List.filter_append, hd, hr, reverseGeometry]
      · simp only [Bool.not_eq_true] at hr
        simp [List.filter_cons, List.filter_append, hd, hr, reverseGeometry]

/-- C6 (amended): organizing by station emits, per canonical geometry,
one forward entry under its departure station, and exactly when the
geometry's canonical key has a reverse-direction record, one additional
entry (same polyline and key, endpoints taken from the reverse record)
under the reverse record's departure station — so a station with no
recorded reverse direction never receives a synthesized entry.  In the
per-station file output the direction tag of any entry is `reverse`
exactly when its departure identifier sorts after its return identifier;
a synthesized entry whose departure identifier sorts first is therefore
tagged `forward`, contrary to the original claim that reverse entries
are always tagged `reverse`. -/
theorem C6_organize_by_station (routes : List RouteGeometry)
    (bmap : List (String × RouteStatistics)) (s : String) :
    ((organize_by_station routes bmap s).length =
      routes.countP (fun r => r.departure_station_id == s) +
      routes.countP (fun r =>
        match lookupA bmap r.route_key with
        | some rev => rev.departure_station_id == s
        | none => false)) ∧
    (∀ g ∈ organize_by_station routes bmap s,
      (g ∈ routes ∧ g.departure_station_id = s) ∨
      (∃ r, r ∈ routes ∧ ∃ rev, lookupA bmap r.route_key = some rev ∧
        rev.departure_station_id = s ∧ g = reverseGeometry r rev)) ∧
    (∀ g : RouteGeometry, (stationFileEntryOf g).direction =
      (if pyStrLt g.return_station_id g.departure_station_id then "reverse"
       else "forward")) ∧
    (∀ (r : RouteGeometry) (rev : RouteStatistics),
      (reverseGeometry r rev).polyline = r.polyline ∧
      (reverseGeometry r rev).route_key = r.route_key ∧
      (reverseGeometry r rev).departure_station_id = rev.departure_station_id ∧
      (reverseGeometry r rev).return_station_id = rev.return_station_id) := by
  refine ⟨?_, ?_, ?_, fun r rev => ⟨rfl, rfl, rfl, rfl⟩⟩
  · induction routes with
    | nil => rfl
    | cons r rs ih =>
      rw [organize_by_station_cons]
      simp only [List.length_append, List.countP_cons]
      cases hl : lookupA bmap r.route_key with
      | none =>
        simp only [hl]
        by_cases hd : r.departure_station_id == s
        · simp [hd, ih]
          omega
        · simp only [Bool.not_eq_true] at hd
          simp [hd, ih]
      | some rev =>
        simp only [hl]
        by_cases hd : r.departure_station_id == s
        · by_cases hr : rev.departure_station_id == s
          · simp [hd, hr, ih]
            omega
          · simp only [Bool.not_eq_true] at hr
            simp [hd, hr, ih]
            omega
        · simp only [Bool.not_eq_true] at hd
          by_cases hr : rev.departure_station_id == s
          · simp [hd, hr, ih]
            omega
          · simp only [Bool.not_eq_true] at hr
            simp [hd, hr, ih]
  · induction routes with
    | nil =>
      intro g hg
      simp [organize_by_station, organizeEntries] at hg
    | cons r rs ih =>
      intro g hg
      rw [organize_by_station_cons] at hg
      rcases List.mem_append.mp hg with hg12 | hg3
      · rcases List.mem_append.mp hg12 with hgf | hgr
        · by_cases hd : r.departure_station_id == s
          · rw [if_pos hd] at hgf
            have hge : g = r := by simpa using hgf
            rw [hge]
            exact Or.inl ⟨List.mem_cons_self r rs, by simpa using hd⟩
          · rw [if_neg hd] at hgf
            simp at hgf
        · cases hl : lookupA bmap r.route_key with
          | none => simp only [hl] at hgr; simp at hgr
          | some rev =>
            simp only [hl] at hgr
            by_cases hr : rev.departure_station_id == s
            · rw [if_pos hr] at hgr
              have hge : g = reverseGeometry r rev := by simpa using hgr
              exact Or.inr ⟨r, List.mem_cons_self r rs, rev, hl,
                by simpa using hr, hge⟩
            · rw [if_neg hr] at hgr
              simp at hgr
      · rcases ih g hg3 with ⟨h1, h2⟩ | ⟨r2, hr2, rest⟩
        · exact Or.inl ⟨List.mem_cons_of_mem r h1, h2⟩
        · exact Or.inr ⟨r2, List.mem_cons_of_mem r hr2, rest⟩
  · intro g
    cases hlt : pyStrLt g.return_station_id g.departure_station_id with
    | true =>
      have hne : g.departure_station_id ≠ g.return_station_id := by
        intro he
        rw [he, pyStrLt_irrefl] at hlt
        cases hlt
      simp [stationFileEntryOf, pyMinStr, hlt, hne]
    | false =>
      simp [stationFileEntryOf, pyMinStr, hlt]

/-- C6 counterexample: station 030 receives only the synthesized reverse
entry for the geometry requested as 067 → 030, and the per-station file
tags it `forward` (its departure identifier 030 sorts first), refuting
the claim that the synthesized reverse entry is tagged with direction =
reverse. -/
theorem C6_counterexample :
    ((organize_by_station [geomB] mapB "030").map
      (fun g => (stationFileEntryOf g).direction)) = ["forward"] ∧
    (∀ r ∈ [geomB], r.departure_station_id ≠ "030") := by
  refine ⟨rfl, ?_⟩
  decide

/-- C6 witness: the amended characterization instantiated at the
concrete one-geometry input with a recorded reverse direction. -/
theorem C6_witness :
    ((organize_by_station [geomB] mapB "030").length =
      [geomB].countP (fun r => r.departure_station_id == "030") +
      [geomB].countP (fun r =>
        match lookupA mapB r.route_key with
        | some rev => rev.departure_station_id == "030"
        | none => false)) ∧
    ((geomB ∈ [geomB] ∧ geomB.departure_station_id = "067") ∨
      (∃ r, r ∈ [geomB] ∧ ∃ rev, lookupA mapB r.route_key = some rev ∧
        rev.departure_station_id = "067" ∧ geomB = reverseGeometry r rev)) ∧
    (stationFileEntryOf geomB).direction =
      (if pyStrLt geomB.return_station_id geomB.departure_station_id
       then "reverse" else "forward") :=
  ⟨(C6_organize_by_station [geomB] mapB "030").1,
   (C6_organize_by_station [geomB] mapB "067").2.1 geomB (by decide),
   (C6_organize_by_station [geomB] mapB "030").2.2.1 geomB⟩

/-- C9: constructing a TopN strategy with n < 1 or a Coverage strategy
with a percentage outside (0,100] errors at construction, as does a
generation configuration with no strategy enabled across all scopes;
the constructors are pure validation functions, so the error precedes
any selection, database or network activity, and valid parameters never
error. -/
theorem C9_config_validation :
    (∀ n : Int, n < 1 →
      RouteSelectionStrategy.create_top_n n = .error ("N must be positive")) ∧
    (∀ n : Int, 1 ≤ n →
      RouteSelectionStrategy.create_top_n n = .ok ⟨.top_n, some n, none⟩) ∧
    (∀ p : ℚ, ¬(0 < p ∧ p ≤ 100) →
      RouteSelectionStrategy.create_percentage p =
        .error ("Percentage must be between 0 and 100")) ∧
    (∀ p : ℚ, 0 < p → p ≤ 100 →
      RouteSelectionStrategy.create_percentage p = .ok ⟨.percentage, none, some p⟩) ∧
    (∀ mt bs li : Int,
      mkRouteGenerationConfig none none none mt bs li =
        .error ("At least one strategy must be set")) ∧
    (∀ (g i a : Option RouteSelectionStrategy) (mt bs li : Int),
      ¬(g.isNone = true ∧ i.isNone = true ∧ a.isNone = true) →
      1 ≤ mt → 1 ≤ bs → bs ≤ 1000 →
      mkRouteGenerationConfig g i a mt bs li = .ok ⟨g, i, a, mt, bs, li⟩) := by
  refine ⟨?_, ?_, ?_, ?_, ?_, ?_⟩
  · intro n h
    rw [RouteSelectionStrategy.create_top_n, if_pos h]
  · intro n h
    rw [RouteSelectionStrategy.create_top_n, if_neg (by omega)]
  · intro p h
    rw [RouteSelectionStrategy.create_percentage, if_pos h]
  · intro p h1 h2
    rw [RouteSelectionStrategy.create_percentage, if_neg (by push_neg; exact ⟨h1, h2⟩)]
  · intro mt bs li
    rw [mkRouteGenerationConfig, if_pos ⟨rfl, rfl, rfl⟩]
  · intro g i a mt bs li hsome h1 h2 h3
    rw [mkRouteGenerationConfig, if_neg hsome, if_neg (by omega),
      if_neg (by push_neg; exact ⟨h2, h3⟩)]

/-- C9 witness: the validation behavior at concrete parameters — TopN(0)
and Coverage(101) are rejected, TopN(5), Coverage(80) and a
configuration with one enabled strategy are accepted, and a
configuration with all strategies disabled is rejected. -/
theorem C9_witness :
    RouteSelectionStrategy.create_top_n 0 = .error ("N must be positive") ∧
    RouteSelectionStrategy.create_top_n 5 = .ok ⟨.top_n, some 5, none⟩ ∧
    RouteSelectionStrategy.create_percentage 101 =
      .error ("Percentage must be between 0 and 100") ∧
    RouteSelectionStrategy.create_percentage 80 = .ok ⟨.percentage, none, some 80⟩ ∧
    mkRouteGenerationConfig none none none 1 50 10 =
      .error ("At least one strategy must be set") ∧
    mkRouteGenerationConfig (some ⟨.top_n, some 5, none⟩) none none 1 50 10 =
      .ok ⟨some ⟨.top_n, some 5, none⟩, none, none, 1, 50, 10⟩ :=
  ⟨C9_config_validation.1 0 (by omega),
   C9_config_validation.2.1 5 (by omega),
   C9_config_validation.2.2.1 101 (by norm_num),
   C9_config_validation.2.2.2.1 80 (by norm_num) (by norm_num),
   C9_config_validation.2.2.2.2.1 1 50 10,
   C9_config_validation.2.2.2.2.2 (some ⟨.top_n, some 5, none⟩) none none 1 50 10
     (by simp) (by omega) (by omega) (by omega)⟩
